import Mathlib

/-!
# Canopee: statistics and aggregation engine of `src/App.jsx`

A shallow embedding of the pure functions of `App.jsx` (the closures of the
`App` component) and theorems about them.

Conventions of the embedding.

* The closures of `App` read the component state (`responses`, `userId`,
  `selectedQuestion`, `filteredQuestions`); here each of them takes the state
  it reads as explicit arguments.
* JavaScript numbers are embedded in a linearly ordered field `α`; `Math.sqrt`
  is the argument `sqrt : α → α`.  All definitions are generic in `α` and in
  `sqrt`, hence executable.  A theorem that uses no property of the square
  root is stated for every `α` and `sqrt`; the others instantiate `α` at `ℝ`
  and `sqrt` at `Real.sqrt`, i.e. they are about the exact arithmetic that the
  IEEE doubles of the program approximate.
* Identifiers of questions and responses and timestamps are natural numbers,
  user identifiers are strings; a field that may be missing is an `Option`.
* The handlers return the state that they pass to the setters.  The clock
  (`Date.now()`, `new Date()`) is the argument `now`, the answer to the
  `confirm` dialog is the argument `confirmed`.
-/

namespace Canopee

/-! ## Data model -/

/-- A question object, as built by `mockQuestions` and `handleSubmitQuestion`. -/
structure Question where
  id : Nat
  text : String
  tags : List String
  created_by : String
  created_at : Nat
  updated_at : Option Nat
  deriving DecidableEq

/-- A response object, as built by `mockResponses` and `handleSubmitResponse`.
The mock responses carry neither `created_at` nor `updated_at`. -/
structure Response (α : Type) where
  id : Nat
  question_id : Nat
  user_id : String
  agreement : α
  importance : α
  created_at : Option Nat
  updated_at : Option Nat
  deriving DecidableEq

/-- The record returned by `getQuestionStats`. -/
structure QuestionStats (α : Type) where
  avgAgreement : α
  avgImportance : α
  stdDevAgreement : α
  stdDevImportance : α
  stdDevGlobal : α
  controversy : String
  controversyLabel : String
  controversyColor : String
  deriving DecidableEq

/-- The record returned by `getGroupStats`; `avgDistance` is `null` in the
source when the user answered none of the questions. -/
structure GroupStats (α : Type) where
  avgStdDev : α
  cohesionLabel : String
  cohesionIcon : String
  cohesionColor : String
  cohesionDescription : String
  userPositionLabel : String
  userPositionIcon : String
  userPositionColor : String
  userPositionDescription : String
  avgDistance : Option α
  totalQuestions : Nat
  userAnswered : Nat
  deriving DecidableEq

section Engine

variable {α : Type} [LinearOrderedField α]

/-! ## Per-question statistics (`App.jsx`, lines 198-258) -/

/-- The closure `getQuestionResponses`: the responses of one question, in
store order. -/
def getQuestionResponses (responses : List (Response α)) (questionId : Nat) :
    List (Response α) :=
  responses.filter (fun r => decide (r.question_id = questionId))

/-- The closure `getUserResponse`: the first response of `userId` to the
question. -/
def getUserResponse (responses : List (Response α)) (userId : String)
    (questionId : Nat) : Option (Response α) :=
  responses.find? (fun r => decide (r.question_id = questionId) && decide (r.user_id = userId))

/-- The closure `getQuestionStats`: means, population standard deviations and controversy
tier of one question; `none` is the source's `null`. -/
def getQuestionStats (sqrt : α → α) (responses : List (Response α))
    (questionId : Nat) : Option (QuestionStats α) :=
  let qResponses := getQuestionResponses responses questionId
  if qResponses.length = 0 then none
  else
    let avgAgreement :=
      qResponses.foldl (fun sum r => sum + r.agreement) 0 / (qResponses.length : α)
    let avgImportance :=
      qResponses.foldl (fun sum r => sum + r.importance) 0 / (qResponses.length : α)
    let varianceAgreement :=
      qResponses.foldl (fun sum r => sum + (r.agreement - avgAgreement) ^ 2) 0
        / (qResponses.length : α)
    let stdDevAgreement := sqrt varianceAgreement
    let varianceImportance :=
      qResponses.foldl (fun sum r => sum + (r.importance - avgImportance) ^ 2) 0
        / (qResponses.length : α)
    let stdDevImportance := sqrt varianceImportance
    let stdDevGlobal := (stdDevAgreement + stdDevImportance) / 2
    let tier : String × String × String :=
      if stdDevGlobal > 30 then ("very_controversial", "🔥 Très controversé", "red")
      else if stdDevGlobal > 20 then ("controversial", "⚡ Controversé", "orange")
      else if stdDevGlobal > 10 then ("mixed", "🤔 Avis mitigés", "yellow")
      else ("consensus", "🤝 Consensus", "green")
    some
      { avgAgreement := avgAgreement
        avgImportance := avgImportance
        stdDevAgreement := stdDevAgreement
        stdDevImportance := stdDevImportance
        stdDevGlobal := stdDevGlobal
        controversy := tier.1
        controversyLabel := tier.2.1
        controversyColor := tier.2.2 }

/-! ## Distance of the user to the mean -/

/-- The JavaScript expression `x || d` for `x` a number or `undefined`
(`stats?.avgAgreement`): `d` replaces `undefined` and also the falsy number
`0`. -/
def jsOr (x : Option α) (d : α) : α :=
  match x with
  | none => d
  | some v => if v = 0 then d else v

/-- The question list item (`App.jsx`, lines 789-820): the unrounded `distance`
of the user to the mean of `q` with `distanceLabel` and `distanceColor`;
`none` when `userDistance` stays `null`. -/
def QuestionList.userDistance (sqrt : α → α) (responses : List (Response α))
    (userId : String) (q : Question) : Option (α × String × String) :=
  let userResponse := getUserResponse responses userId q.id
  let stats := getQuestionStats sqrt responses q.id
  match userResponse, stats with
  | some userResponse, some stats =>
    let distance :=
      sqrt ((userResponse.agreement - stats.avgAgreement) ^ 2
        + (userResponse.importance - stats.avgImportance) ^ 2)
    if distance < 10 then some (distance, "🎯 Aligné avec la moyenne", "green")
    else if distance < 25 then some (distance, "📊 Position modérée", "blue")
    else if distance < 40 then some (distance, "🔀 Position différente", "orange")
    else some (distance, "🌟 Position très minoritaire", "purple")
  | _, _ => none

/-- The component `ResultsView` (`App.jsx`, lines 376-391): the `userDistance` of the
selected question before `.toFixed(1)`; `none` is the source's `null`. -/
def ResultsView.userDistance (sqrt : α → α) (responses : List (Response α))
    (userId : String) (selectedQuestion : Question) : Option α :=
  let userResponse := getUserResponse responses userId selectedQuestion.id
  let stats := getQuestionStats sqrt responses selectedQuestion.id
  let avgAgreement := jsOr (stats.map (fun s => s.avgAgreement)) 50
  let avgImportance := jsOr (stats.map (fun s => s.avgImportance)) 50
  match userResponse with
  | some userResponse =>
    some (sqrt ((userResponse.agreement - avgAgreement) ^ 2
      + (userResponse.importance - avgImportance) ^ 2))
  | none => none

/-! ## Group statistics (`App.jsx`, lines 530-629) -/

/-- The local `questionsWithResponses` of `getGroupStats`. -/
def getGroupStats.questionsWithResponses (responses : List (Response α))
    (filteredQuestions : List Question) : List Question :=
  filteredQuestions.filter (fun q => decide ((getQuestionResponses responses q.id).length > 0))

/-- The local `allStdDevs` of `getGroupStats`: map, drop the `null`s, map. -/
def getGroupStats.allStdDevs (sqrt : α → α) (responses : List (Response α))
    (filteredQuestions : List Question) : List α :=
  (((getGroupStats.questionsWithResponses responses filteredQuestions).map
    (fun q => getQuestionStats sqrt responses q.id)).filter
      (fun s => s.isSome)).filterMap (fun s => s.map (fun s => s.stdDevGlobal))

/-- The local `userResponses` of `getGroupStats`: the answered questions on
which the current user has a response. -/
def getGroupStats.userResponses (responses : List (Response α)) (userId : String)
    (filteredQuestions : List Question) : List Question :=
  (getGroupStats.questionsWithResponses responses filteredQuestions).filter
    (fun q => (getUserResponse responses userId q.id).isSome)

/-- The local `allDistances` of `getGroupStats`. -/
def getGroupStats.allDistances (sqrt : α → α) (responses : List (Response α))
    (userId : String) (filteredQuestions : List Question) : List α :=
  (getGroupStats.userResponses responses userId filteredQuestions).map fun q =>
    let response := getUserResponse responses userId q.id
    let stats := getQuestionStats sqrt responses q.id
    match response, stats with
    | some response, some stats =>
      sqrt ((response.agreement - stats.avgAgreement) ^ 2
        + (response.importance - stats.avgImportance) ^ 2)
    | _, _ => 0

/-- The closure `getGroupStats`: cohesion of the group and position of the current user
over `filteredQuestions`; `none` is the source's `null`. -/
def getGroupStats (sqrt : α → α) (responses : List (Response α)) (userId : String)
    (filteredQuestions : List Question) : Option (GroupStats α) :=
  let questionsWithResponses := getGroupStats.questionsWithResponses responses filteredQuestions
  if questionsWithResponses.length = 0 then none
  else
    let allStdDevs := getGroupStats.allStdDevs sqrt responses filteredQuestions
    let avgStdDev := allStdDevs.foldl (fun sum std => sum + std) 0 / (allStdDevs.length : α)
    let cohesion : String × String × String × String :=
      if avgStdDev < 10 then
        ("Très forte", "💚", "green", "Le groupe partage des opinions très similaires")
      else if avgStdDev < 20 then
        ("Forte", "💙", "blue", "Le groupe a globalement des opinions proches")
      else if avgStdDev < 30 then
        ("Modérée", "🧡", "orange", "Le groupe présente des différences d\x27opinion notables")
      else
        ("Faible", "❤️", "red", "Le groupe est très divisé sur de nombreux sujets")
    let userResponses := getGroupStats.userResponses responses userId filteredQuestions
    let userPosition : Option α × String × String × String × String :=
      if userResponses.length > 0 then
        let allDistances := getGroupStats.allDistances sqrt responses userId filteredQuestions
        let avgDistance :=
          allDistances.foldl (fun sum d => sum + d) 0 / (allDistances.length : α)
        if avgDistance < 10 then
          (some avgDistance, "Mainstream", "🎯", "green",
            "Vos opinions sont très alignées avec le groupe")
        else if avgDistance < 20 then
          (some avgDistance, "Conformiste modéré", "📊", "blue",
            "Vous partagez globalement les opinions du groupe")
        else if avgDistance < 30 then
          (some avgDistance, "Indépendant", "🔀", "purple",
            "Vous avez des opinions distinctes du groupe")
        else
          (some avgDistance, "Atypique", "🌟", "pink",
            "Vos opinions sont très différentes de la majorité")
      else (none, "", "", "", "")
    some
      { avgStdDev := avgStdDev
        cohesionLabel := cohesion.1
        cohesionIcon := cohesion.2.1
        cohesionColor := cohesion.2.2.1
        cohesionDescription := cohesion.2.2.2
        userPositionLabel := userPosition.2.1
        userPositionIcon := userPosition.2.2.1
        userPositionColor := userPosition.2.2.2.1
        userPositionDescription := userPosition.2.2.2.2
        avgDistance := userPosition.1
        totalQuestions := questionsWithResponses.length
        userAnswered := userResponses.length }

/-! ## Notions of the specification -/

/-- Arithmetic mean of a list of numbers: the sum divided by the length `N`. -/
def mean (l : List α) : α :=
  l.sum / (l.length : α)

/-- Population variance of a list of numbers: the mean of the squared
deviations from the mean (divisor `N`, not `N - 1`). -/
def populationVariance (l : List α) : α :=
  mean (l.map (fun x => (x - mean l) ^ 2))

/-- Euclidean distance, for the square root `sqrt`, between the points
`(a, i)` and `(a0, i0)` of the (agreement, importance) plane. -/
def euclid (sqrt : α → α) (a i a0 i0 : α) : α :=
  sqrt ((a - a0) ^ 2 + (i - i0) ^ 2)

end Engine

/-- A JavaScript value of a field of the object that `getGroupStats`
returns. -/
inductive JsValue (α : Type) where
  | null
  | number (x : α)
  | string (s : String)
  deriving DecidableEq

/-- The user-alignment fields of the object that `getGroupStats` returns
(`App.jsx`, lines 573-577 and 615-628), by name and as JavaScript values: the
four strings are always present, `avgDistance` is a number or `null`. -/
def GroupStats.userAlignmentFields {α : Type} (g : GroupStats α) : List (String × JsValue α) :=
  [("userPositionLabel", JsValue.string g.userPositionLabel),
    ("userPositionIcon", JsValue.string g.userPositionIcon),
    ("userPositionColor", JsValue.string g.userPositionColor),
    ("userPositionDescription", JsValue.string g.userPositionDescription),
    ("avgDistance",
      match g.avgDistance with
      | some d => JsValue.number d
      | none => JsValue.null)]

/-! ## State updates (`App.jsx`, lines 126-196) -/

section Handlers

variable {α : Type}

/-- The closure `handleSubmitResponse`: the `responses` passed to
`setResponses`. `now` stands for `Date.now()` and `new Date()`; the index `-1`
of `findIndex` is `none`. -/
def handleSubmitResponse (responses : List (Response α)) (selectedQuestion : Question)
    (userId : String) (agreement importance : α) (now : Nat) : List (Response α) :=
  let existingResponseIndex := responses.findIdx?
    (fun r => decide (r.question_id = selectedQuestion.id) && decide (r.user_id = userId))
  match existingResponseIndex with
  | some existingResponseIndex =>
    match responses[existingResponseIndex]? with
    | some existing =>
      responses.set existingResponseIndex
        { existing with agreement := agreement, importance := importance,
                        updated_at := some now }
    | none => responses
  | none =>
    responses ++
      [{ id := now, question_id := selectedQuestion.id, user_id := userId,
         agreement := agreement, importance := importance, created_at := some now,
         updated_at := none }]

/-- The closure `handleDeleteQuestion`: the `questions` and `responses` after
the call; `confirmed` is the answer to the `confirm` dialog. -/
def handleDeleteQuestion (confirmed : Bool) (questions : List Question)
    (responses : List (Response α)) (questionId : Nat) :
    List Question × List (Response α) :=
  if confirmed then
    (questions.filter (fun q => decide (q.id ≠ questionId)),
      responses.filter (fun r => decide (r.question_id ≠ questionId)))
  else (questions, responses)

end Handlers

/-- The part of the component state that the question form reads and
writes. -/
structure FormState where
  questions : List Question
  newQuestion : String
  newQuestionTags : List String
  editingQuestion : Option Question
  view : String
  deriving DecidableEq

/-- The characters that the built-in `String.prototype.trim` strips: the
ECMAScript `WhiteSpace` code points (tab, vertical tab, form feed, U+FEFF and
the Unicode space separators U+0020, U+00A0, U+1680, U+2000 to U+200A, U+202F,
U+205F, U+3000) and the `LineTerminator` code points (line feed, carriage
return, U+2028, U+2029). -/
def jsIsWhiteSpace (c : Char) : Bool :=
  [0x0009, 0x000A, 0x000B, 0x000C, 0x000D, 0x0020, 0x00A0, 0x1680, 0x2028, 0x2029, 0x202F,
    0x205F, 0x3000, 0xFEFF].contains c.toNat
  || (decide (0x2000 ≤ c.toNat) && decide (c.toNat ≤ 0x200A))

/-- The closure `handleSubmitQuestion`. `now` stands for `Date.now()` and
`new Date()`; `!newQuestion.trim()` holds when `newQuestion` is empty once
trimmed, that is when each of its characters is one that `trim` strips. -/
def handleSubmitQuestion (userId : String) (now : Nat) (s : FormState) : FormState :=
  if s.newQuestion.data.all jsIsWhiteSpace then s
  else
    let s1 : FormState :=
      match s.editingQuestion with
      | some editingQuestion =>
        { s with
          questions := s.questions.map (fun q =>
            if q.id = editingQuestion.id then
              { q with text := s.newQuestion, tags := s.newQuestionTags, updated_at := some now }
            else q)
          editingQuestion := none }
      | none =>
        { s with
          questions := s.questions ++
            [{ id := now, text := s.newQuestion, tags := s.newQuestionTags,
               created_by := userId, created_at := now, updated_at := none }] }
    { s1 with newQuestion := "", newQuestionTags := [], view := "list" }

/-- The closure `handleEditQuestion`. -/
def handleEditQuestion (question : Question) (s : FormState) : FormState :=
  { s with editingQuestion := some question, newQuestion := question.text,
           newQuestionTags := question.tags, view := "ask" }

/-- The calls that a button of the question list makes when clicked. -/
inductive Click where
  | handleEditQuestion (question : Question)
  | handleDeleteQuestion (questionId : Nat)
  deriving DecidableEq

/-- The buttons that the list item of `q` renders under `isCreator`
(`App.jsx`, lines 792 and 895-910), each as the call of its `onClick`. -/
def QuestionList.creatorButtons (userId : String) (q : Question) : List Click :=
  let isCreator := decide (q.created_by = userId)
  if isCreator then [Click.handleEditQuestion q, Click.handleDeleteQuestion q.id] else []

section Views

variable {α : Type} [LinearOrderedField α]

/-- The component `AnswerView` (`App.jsx`, lines 286-290): the initial values
of the `agreement` and `importance` sliders and `isEditing`. -/
def AnswerView.initialState (responses : List (Response α)) (userId : String)
    (selectedQuestion : Question) : α × α × Bool :=
  let existingResponse := getUserResponse responses userId selectedQuestion.id
  (jsOr (existingResponse.map (fun r => r.agreement)) 50,
    jsOr (existingResponse.map (fun r => r.importance)) 50,
    existingResponse.isSome)

/-- The submit button of `AnswerView` (`App.jsx`, lines 365-370) clicked while
the sliders still have their initial values. -/
def AnswerView.submitInitial (responses : List (Response α)) (userId : String)
    (selectedQuestion : Question) (now : Nat) : List (Response α) :=
  handleSubmitResponse responses selectedQuestion userId
    (AnswerView.initialState responses userId selectedQuestion).1
    (AnswerView.initialState responses userId selectedQuestion).2.1 now

/-- The rank, from 1 to 4, of the branch that the chain of tests on `distance`
of the question list item takes (`App.jsx`, lines 807-819). -/
def QuestionList.distanceBand (distance : α) : Nat :=
  if distance < 10 then 1
  else if distance < 25 then 2
  else if distance < 40 then 3
  else 4

/-- The `distanceLabel` that the question list item sets in its branch of the
given rank. -/
def QuestionList.bandLabel (band : Nat) : String :=
  if band = 1 then "🎯 Aligné avec la moyenne"
  else if band = 2 then "📊 Position modérée"
  else if band = 3 then "🔀 Position différente"
  else "🌟 Position très minoritaire"

/-- The rank, from 1 to 4, of the branch that the chain of tests on
`avgDistance` of `getGroupStats` takes (`App.jsx`, lines 592-612). -/
def getGroupStats.distanceBand (avgDistance : α) : Nat :=
  if avgDistance < 10 then 1
  else if avgDistance < 20 then 2
  else if avgDistance < 30 then 3
  else 4

/-- The `userPositionLabel` that `getGroupStats` sets in its branch of the
given rank. -/
def getGroupStats.bandLabel (band : Nat) : String :=
  if band = 1 then "Mainstream"
  else if band = 2 then "Conformiste modéré"
  else if band = 3 then "Indépendant"
  else "Atypique"

end Views

/-- The invariant of the response collection: no `(question_id, user_id)` pair
occurs on two responses. -/
def OnePerPair {α : Type} (responses : List (Response α)) : Prop :=
  (responses.map (fun r => (r.question_id, r.user_id))).Nodup

/-! ## Sorting (`App.jsx`, lines 78-104) -/

/-- The comparator that `getSortedQuestions` passes to `sort`, for the value
`sortBy` of the state: by mean importance, by global standard deviation, and
otherwise by creation date, most recent first. -/
def getSortedQuestions.compare {α : Type} [LinearOrderedField α] (sqrt : α → α)
    (responses : List (Response α)) (sortBy : String) (a b : Question) : α :=
  if sortBy = "importance" then
    let statsA := getQuestionStats sqrt responses a.id
    let statsB := getQuestionStats sqrt responses b.id
    match statsA, statsB with
    | none, _ => 1
    | some _, none => -1
    | some statsA, some statsB => statsB.avgImportance - statsA.avgImportance
  else if sortBy = "controversy" then
    let statsA := getQuestionStats sqrt responses a.id
    let statsB := getQuestionStats sqrt responses b.id
    match statsA, statsB with
    | none, _ => 1
    | some _, none => -1
    | some statsA, some statsB => statsB.stdDevGlobal - statsA.stdDevGlobal
  else
    (b.created_at : α) - (a.created_at : α)

/-- The initial `mockResponses` of the component. -/
def mockResponses (α : Type) [LinearOrderedField α] : List (Response α) :=
  [ { id := 1, question_id := 1, user_id := "demo1", agreement := 30, importance := 70,
      created_at := none, updated_at := none },
    { id := 2, question_id := 1, user_id := "demo2", agreement := 80, importance := 40,
      created_at := none, updated_at := none },
    { id := 3, question_id := 2, user_id := "demo1", agreement := 20, importance := 20,
      created_at := none, updated_at := none } ]

/-- A response of `user_id` to `question_id` without timestamps, as the mock
responses are. -/
def mkResponse (α : Type) (id question_id : Nat) (user_id : String)
    (agreement importance : α) : Response α :=
  { id := id, question_id := question_id, user_id := user_id, agreement := agreement,
    importance := importance, created_at := none, updated_at := none }

/-- A question with the given `id` and creator, with a fixed text and no tag. -/
def mkQuestion (id : Nat) (created_by : String) : Question :=
  { id := id, text := "q", tags := [], created_by := created_by, created_at := 0,
    updated_at := none }

/-- Two answered questions: question 1 with the responses `(30, 70)` and
`(80, 40)`, question 2 with the responses `(10, 10)` and `(90, 90)`. -/
def twoQuestionResponses (α : Type) [LinearOrderedField α] : List (Response α) :=
  [mkResponse α 1 1 "demo1" 30 70, mkResponse α 2 1 "demo2" 80 40,
    mkResponse α 3 2 "demo1" 10 10, mkResponse α 4 2 "demo2" 90 90]

/-- The group statistics of `twoQuestionResponses` for a user who answered
no question. -/
def twoQuestionGroupStats (α : Type) [LinearOrderedField α] : GroupStats α :=
  { avgStdDev := 30, cohesionLabel := "Faible", cohesionIcon := "❤️", cohesionColor := "red",
    cohesionDescription := "Le groupe est très divisé sur de nombreux sujets",
    userPositionLabel := "", userPositionIcon := "", userPositionColor := "",
    userPositionDescription := "", avgDistance := none, totalQuestions := 2,
    userAnswered := 0 }

/-! ## Lemmas on the per-question statistics -/

section Lemmas
variable {α : Type} [LinearOrderedField α]

/-- A `reduce` that adds `f r` to the accumulator, started at `0`, is the sum
of the `f r`. -/
theorem foldl_add_eq_sum {β : Type} (f : β → α) (l : List β) :
    l.foldl (fun sum r => sum + f r) 0 = (l.map f).sum := by
  suffices h : ∀ init, l.foldl (fun sum r => sum + f r) init = init + (l.map f).sum by
    simpa using h 0
  induction l with
  | nil => intro init; simp
  | cons a t ih => intro init; simp [ih, add_assoc]

theorem getQuestionStats_eq_none_iff (sqrt : α → α) (responses : List (Response α))
    (questionId : Nat) :
    getQuestionStats sqrt responses questionId = none ↔
      getQuestionResponses responses questionId = [] := by
  unfold getQuestionStats
  by_cases h : getQuestionResponses responses questionId = []
  · simp [h]
  · simp [h, List.length_eq_zero]

/-- The record that `getQuestionStats` returns on a question with responses,
with every `reduce` written as a mean. -/
theorem getQuestionStats_of_ne_nil (sqrt : α → α) (responses : List (Response α))
    (questionId : Nat) (h : getQuestionResponses responses questionId ≠ []) :
    ∃ s, getQuestionStats sqrt responses questionId = some s ∧
      s.avgAgreement =
        mean ((getQuestionResponses responses questionId).map (fun r => r.agreement)) ∧
      s.avgImportance =
        mean ((getQuestionResponses responses questionId).map (fun r => r.importance)) ∧
      s.stdDevAgreement = sqrt (populationVariance
        ((getQuestionResponses responses questionId).map (fun r => r.agreement))) ∧
      s.stdDevImportance = sqrt (populationVariance
        ((getQuestionResponses responses questionId).map (fun r => r.importance))) ∧
      s.stdDevGlobal = (s.stdDevAgreement + s.stdDevImportance) / 2 ∧
      (s.controversy, s.controversyLabel, s.controversyColor) =
        (if s.stdDevGlobal > 30 then ("very_controversial", "🔥 Très controversé", "red")
         else if s.stdDevGlobal > 20 then ("controversial", "⚡ Controversé", "orange")
         else if s.stdDevGlobal > 10 then ("mixed", "🤔 Avis mitigés", "yellow")
         else ("consensus", "🤝 Consensus", "green")) := by
  unfold getQuestionStats
  simp only [List.length_eq_zero, h, if_false]
  refine ⟨_, rfl, ?_, ?_, ?_, ?_, rfl, rfl⟩
  · simp [mean, foldl_add_eq_sum]
  · simp [mean, foldl_add_eq_sum]
  · simp [populationVariance, mean, foldl_add_eq_sum, List.map_map, Function.comp_def]
  · simp [populationVariance, mean, foldl_add_eq_sum, List.map_map, Function.comp_def]

end Lemmas

section NoField
variable {α : Type}

theorem getQuestionResponses_eq_nil_iff (responses : List (Response α)) (questionId : Nat) :
    getQuestionResponses responses questionId = [] ↔
      ∀ r ∈ responses, r.question_id ≠ questionId := by
  simp [getQuestionResponses, List.filter_eq_nil_iff]

theorem getQuestionResponses_ne_nil_iff (responses : List (Response α)) (questionId : Nat) :
    getQuestionResponses responses questionId ≠ [] ↔
      ∃ r ∈ responses, r.question_id = questionId := by
  simp [getQuestionResponses_eq_nil_iff]
end NoField

/-- Population variances are non-negative. -/
theorem populationVariance_nonneg {α : Type} [LinearOrderedField α] (l : List α) :
    0 ≤ populationVariance l := by
  unfold populationVariance
  generalize mean l = m
  unfold mean
  apply div_nonneg _ (Nat.cast_nonneg _)
  apply List.sum_nonneg
  intro x hx
  simp only [List.mem_map] at hx
  obtain ⟨y, _, rfl⟩ := hx
  positivity

/-! ## Concrete evaluations over the reals -/

theorem sqrt_625 : Real.sqrt 625 = 25 := by
  rw [show (625 : ℝ) = 25 ^ 2 by norm_num]; exact Real.sqrt_sq (by norm_num)

theorem sqrt_225 : Real.sqrt 225 = 15 := by
  rw [show (225 : ℝ) = 15 ^ 2 by norm_num]; exact Real.sqrt_sq (by norm_num)

theorem sqrt_900 : Real.sqrt 900 = 30 := by
  rw [show (900 : ℝ) = 30 ^ 2 by norm_num]; exact Real.sqrt_sq (by norm_num)

theorem sqrt_1600 : Real.sqrt 1600 = 40 := by
  rw [show (1600 : ℝ) = 40 ^ 2 by norm_num]; exact Real.sqrt_sq (by norm_num)

theorem getQuestionResponses_mock_1 :
    getQuestionResponses (mockResponses ℝ) 1 =
      [mkResponse ℝ 1 1 "demo1" 30 70, mkResponse ℝ 2 1 "demo2" 80 40] := by
  simp [getQuestionResponses, mockResponses, mkResponse]

/-- The statistics of question 1 of the mock data: responses `(30, 70)` and
`(80, 40)`. -/
theorem getQuestionStats_mock_1 :
    getQuestionStats Real.sqrt (mockResponses ℝ) 1 =
      some { avgAgreement := 55, avgImportance := 55, stdDevAgreement := 25,
             stdDevImportance := 15, stdDevGlobal := 20, controversy := "mixed",
             controversyLabel := "🤔 Avis mitigés", controversyColor := "yellow" } := by
  simp only [getQuestionStats, getQuestionResponses_mock_1, mkResponse, List.foldl, List.length]
  norm_num [sqrt_625, sqrt_225]

/-! ## Claims on `getQuestionStats` -/

/-- C1: `getQuestionStats` returns `null` exactly when no response of the
collection has the given `question_id`, and returns a record exactly when some
response has it; being a total function it never faults. -/
theorem getQuestionStats_null_iff {α : Type} [LinearOrderedField α] (sqrt : α → α)
    (responses : List (Response α)) (questionId : Nat) :
    (getQuestionStats sqrt responses questionId = none ↔
        ∀ r ∈ responses, r.question_id ≠ questionId) ∧
      ((∃ s, getQuestionStats sqrt responses questionId = some s) ↔
        ∃ r ∈ responses, r.question_id = questionId) := by
  have hnone := (getQuestionStats_eq_none_iff sqrt responses questionId).trans
    (getQuestionResponses_eq_nil_iff responses questionId)
  refine ⟨hnone, ?_⟩
  rw [← Option.isSome_iff_exists, ← Option.not_isSome_iff_eq_none] at *
  rw [← not_iff_not, hnone]
  push_neg
  rfl

/-- C2: on a question with `N ≥ 1` responses `getQuestionStats` returns a record
whose `avgAgreement` is the sum of the agreements divided by `N` and whose
`avgImportance` is the sum of the importances divided by `N`. -/
theorem getQuestionStats_avg {α : Type} [LinearOrderedField α] (sqrt : α → α)
    (responses : List (Response α)) (questionId : Nat)
    (h : 1 ≤ (getQuestionResponses responses questionId).length) :
    ∃ s, getQuestionStats sqrt responses questionId = some s ∧
      s.avgAgreement =
        ((getQuestionResponses responses questionId).map (fun r => r.agreement)).sum
          / ((getQuestionResponses responses questionId).length : α) ∧
      s.avgImportance =
        ((getQuestionResponses responses questionId).map (fun r => r.importance)).sum
          / ((getQuestionResponses responses questionId).length : α) := by
  have hne : getQuestionResponses responses questionId ≠ [] := by
    intro h0; rw [h0] at h; simp at h
  obtain ⟨s, hs, hA, hI, -⟩ := getQuestionStats_of_ne_nil sqrt responses questionId hne
  exact ⟨s, hs, by simpa [mean] using hA, by simpa [mean] using hI⟩

/-- Witness of C2 on question 1 of the mock data, over the reals. -/
theorem getQuestionStats_avg_witness :
    1 ≤ (getQuestionResponses (mockResponses ℝ) 1).length ∧
    ∃ s, getQuestionStats Real.sqrt (mockResponses ℝ) 1 = some s ∧
      s.avgAgreement =
        ((getQuestionResponses (mockResponses ℝ) 1).map (fun r => r.agreement)).sum
          / ((getQuestionResponses (mockResponses ℝ) 1).length : ℝ) ∧
      s.avgImportance =
        ((getQuestionResponses (mockResponses ℝ) 1).map (fun r => r.importance)).sum
          / ((getQuestionResponses (mockResponses ℝ) 1).length : ℝ) :=
  ⟨by decide, getQuestionStats_avg Real.sqrt (mockResponses ℝ) 1 (by decide)⟩

/-- C3: on a question with `N ≥ 1` responses, `stdDevAgreement` is the
non-negative square root of `(1/N) * Σ (agreement - avgAgreement)^2` and
`stdDevImportance` the same for importance, each with its own mean and with
divisor `N`; on the responses `(30, 70)`, `(80, 40)` of mock question 1 the
means are 55 and 55 and the deviations 25, 15 and 20. -/
theorem getQuestionStats_stdDev :
    (∀ (responses : List (Response ℝ)) (questionId : Nat),
      1 ≤ (getQuestionResponses responses questionId).length →
      ∃ s, getQuestionStats Real.sqrt responses questionId = some s ∧
        0 ≤ s.stdDevAgreement ∧
        s.stdDevAgreement ^ 2 =
          1 / ((getQuestionResponses responses questionId).length : ℝ) *
            ((getQuestionResponses responses questionId).map
              (fun r => (r.agreement - s.avgAgreement) ^ 2)).sum ∧
        0 ≤ s.stdDevImportance ∧
        s.stdDevImportance ^ 2 =
          1 / ((getQuestionResponses responses questionId).length : ℝ) *
            ((getQuestionResponses responses questionId).map
              (fun r => (r.importance - s.avgImportance) ^ 2)).sum) ∧
    (getQuestionResponses (mockResponses ℝ) 1 =
        [mkResponse ℝ 1 1 "demo1" 30 70, mkResponse ℝ 2 1 "demo2" 80 40] ∧
      ∃ s, getQuestionStats Real.sqrt (mockResponses ℝ) 1 = some s ∧
        s.avgAgreement = 55 ∧ s.avgImportance = 55 ∧ s.stdDevAgreement = 25 ∧
        s.stdDevImportance = 15 ∧ s.stdDevGlobal = 20) := by
  refine ⟨?_, getQuestionResponses_mock_1, _, getQuestionStats_mock_1, rfl, rfl, rfl, rfl, rfl⟩
  intro responses questionId h
  have hne : getQuestionResponses responses questionId ≠ [] := by
    intro h0; rw [h0] at h; simp at h
  obtain ⟨s, hs, hA, hI, hsA, hsI, -⟩ :=
    getQuestionStats_of_ne_nil Real.sqrt responses questionId hne
  refine ⟨s, hs, ?_, ?_, ?_, ?_⟩
  · rw [hsA]; exact Real.sqrt_nonneg _
  · rw [hsA, Real.sq_sqrt (populationVariance_nonneg _), hA]
    simp [populationVariance, mean, List.map_map, Function.comp_def, div_eq_inv_mul]
  · rw [hsI]; exact Real.sqrt_nonneg _
  · rw [hsI, Real.sq_sqrt (populationVariance_nonneg _), hI]
    simp [populationVariance, mean, List.map_map, Function.comp_def, div_eq_inv_mul]

/-- Witness of C3 on question 2 of the mock data (one response). -/
theorem getQuestionStats_stdDev_witness :
    1 ≤ (getQuestionResponses (mockResponses ℝ) 2).length ∧
    ∃ s, getQuestionStats Real.sqrt (mockResponses ℝ) 2 = some s ∧
      0 ≤ s.stdDevAgreement ∧
      s.stdDevAgreement ^ 2 =
        1 / ((getQuestionResponses (mockResponses ℝ) 2).length : ℝ) *
          ((getQuestionResponses (mockResponses ℝ) 2).map
            (fun r => (r.agreement - s.avgAgreement) ^ 2)).sum ∧
      0 ≤ s.stdDevImportance ∧
      s.stdDevImportance ^ 2 =
        1 / ((getQuestionResponses (mockResponses ℝ) 2).length : ℝ) *
          ((getQuestionResponses (mockResponses ℝ) 2).map
            (fun r => (r.importance - s.avgImportance) ^ 2)).sum :=
  ⟨by decide, getQuestionStats_stdDev.1 (mockResponses ℝ) 2 (by decide)⟩

/-- C4: on a non-empty response set the record of `getQuestionStats` has
non-negative `stdDevAgreement` and `stdDevImportance`, and `stdDevGlobal` is
exactly their arithmetic mean. -/
theorem getQuestionStats_stdDevGlobal (responses : List (Response ℝ)) (questionId : Nat)
    (h : getQuestionResponses responses questionId ≠ []) :
    ∃ s, getQuestionStats Real.sqrt responses questionId = some s ∧
      s.stdDevAgreement ≥ 0 ∧ s.stdDevImportance ≥ 0 ∧
      s.stdDevGlobal = (s.stdDevAgreement + s.stdDevImportance) / 2 := by
  obtain ⟨s, hs, -, -, hsA, hsI, hG, -⟩ :=
    getQuestionStats_of_ne_nil Real.sqrt responses questionId h
  refine ⟨s, hs, ?_, ?_, hG⟩
  · rw [hsA]; exact Real.sqrt_nonneg _
  · rw [hsI]; exact Real.sqrt_nonneg _

/-- Witness of C4 on question 1 of the mock data. -/
theorem getQuestionStats_stdDevGlobal_witness :
    getQuestionResponses (mockResponses ℝ) 1 ≠ [] ∧
    ∃ s, getQuestionStats Real.sqrt (mockResponses ℝ) 1 = some s ∧
      s.stdDevAgreement ≥ 0 ∧ s.stdDevImportance ≥ 0 ∧
      s.stdDevGlobal = (s.stdDevAgreement + s.stdDevImportance) / 2 :=
  ⟨by simp [getQuestionResponses_mock_1],
    getQuestionStats_stdDevGlobal (mockResponses ℝ) 1 (by simp [getQuestionResponses_mock_1])⟩

/-- The controversy tier of a returned record, as the chain of tests of
`getQuestionStats`. -/
theorem getQuestionStats_tier {α : Type} [LinearOrderedField α] (sqrt : α → α)
    (responses : List (Response α)) (questionId : Nat) (s : QuestionStats α)
    (hs : getQuestionStats sqrt responses questionId = some s) :
    (s.controversy, s.controversyLabel, s.controversyColor) =
      (if s.stdDevGlobal > 30 then ("very_controversial", "🔥 Très controversé", "red")
       else if s.stdDevGlobal > 20 then ("controversial", "⚡ Controversé", "orange")
       else if s.stdDevGlobal > 10 then ("mixed", "🤔 Avis mitigés", "yellow")
       else ("consensus", "🤝 Consensus", "green")) := by
  have hne : getQuestionResponses responses questionId ≠ [] := by
    intro h0
    rw [(getQuestionStats_eq_none_iff sqrt responses questionId).2 h0] at hs
    exact Option.noConfusion hs
  obtain ⟨s', hs', -, -, -, -, -, ht⟩ := getQuestionStats_of_ne_nil sqrt responses questionId hne
  rw [hs] at hs'
  cases hs'
  exact ht

/-- The statistics of a question answered `(20, 20)` and `(80, 80)`. -/
theorem getQuestionStats_20_80 :
    getQuestionStats Real.sqrt
        [mkResponse ℝ 1 1 "demo1" 20 20, mkResponse ℝ 2 1 "demo2" 80 80] 1 =
      some { avgAgreement := 50, avgImportance := 50, stdDevAgreement := 30,
             stdDevImportance := 30, stdDevGlobal := 30, controversy := "controversial",
             controversyLabel := "⚡ Controversé", controversyColor := "orange" } := by
  have hq : getQuestionResponses
      [mkResponse ℝ 1 1 "demo1" 20 20, mkResponse ℝ 2 1 "demo2" 80 80] 1 =
      [mkResponse ℝ 1 1 "demo1" 20 20, mkResponse ℝ 2 1 "demo2" 80 80] := by
    simp [getQuestionResponses, mkResponse]
  simp only [getQuestionStats, hq, mkResponse, List.foldl, List.length]
  norm_num [sqrt_900]

/-- C5: the `controversy` field is the step function of `stdDevGlobal` with
strict lower boundaries 30, 20 and 10; the responses `(20, 20)`, `(80, 80)`
have `stdDevGlobal = 30` and are `controversial`, the responses `(30, 70)`,
`(80, 40)` have `stdDevGlobal = 20` and are `mixed`. -/
theorem getQuestionStats_controversy :
    (∀ (responses : List (Response ℝ)) (questionId : Nat) (s : QuestionStats ℝ),
      getQuestionStats Real.sqrt responses questionId = some s →
        (s.controversy = "very_controversial" ↔ s.stdDevGlobal > 30) ∧
        (s.controversy = "controversial" ↔ 20 < s.stdDevGlobal ∧ s.stdDevGlobal ≤ 30) ∧
        (s.controversy = "mixed" ↔ 10 < s.stdDevGlobal ∧ s.stdDevGlobal ≤ 20) ∧
        (s.controversy = "consensus" ↔ s.stdDevGlobal ≤ 10)) ∧
    (∃ s, getQuestionStats Real.sqrt
        [mkResponse ℝ 1 1 "demo1" 20 20, mkResponse ℝ 2 1 "demo2" 80 80] 1 = some s ∧
      s.stdDevGlobal = 30 ∧ s.controversy = "controversial") ∧
    (∃ s, getQuestionStats Real.sqrt
        [mkResponse ℝ 1 1 "demo1" 30 70, mkResponse ℝ 2 1 "demo2" 80 40] 1 = some s ∧
      s.stdDevGlobal = 20 ∧ s.controversy = "mixed") := by
  refine ⟨?_, ⟨_, getQuestionStats_20_80, rfl, rfl⟩, ⟨_, getQuestionStats_mock_1, rfl, rfl⟩⟩
  intro responses questionId s hs
  have ht := getQuestionStats_tier Real.sqrt responses questionId s hs
  have hc : s.controversy =
      (if s.stdDevGlobal > 30 then "very_controversial"
       else if s.stdDevGlobal > 20 then "controversial"
       else if s.stdDevGlobal > 10 then "mixed" else "consensus") := by
    have := congrArg Prod.fst ht
    simp only [apply_ite Prod.fst] at this
    exact this
  rw [hc]
  by_cases h30 : s.stdDevGlobal > 30
  · rw [if_pos h30]
    refine ⟨⟨fun _ => h30, fun _ => rfl⟩, ?_, ?_, ?_⟩
    · constructor
      · intro h; exact absurd h (by decide)
      · rintro ⟨-, h⟩; exact absurd h (not_le.2 h30)
    · constructor
      · intro h; exact absurd h (by decide)
      · rintro ⟨-, h⟩; exact absurd h (not_le.2 (by linarith))
    · constructor
      · intro h; exact absurd h (by decide)
      · intro h; exact absurd h (not_le.2 (by linarith))
  · by_cases h20 : s.stdDevGlobal > 20
    · rw [if_neg h30, if_pos h20]
      refine ⟨?_, ?_, ?_, ?_⟩
      · constructor
        · intro h; exact absurd h (by decide)
        · intro h; exact absurd h h30
      · exact ⟨fun _ => ⟨h20, not_lt.1 h30⟩, fun _ => rfl⟩
      · constructor
        · intro h; exact absurd h (by decide)
        · rintro ⟨-, h⟩; exact absurd h (not_le.2 h20)
      · constructor
        · intro h; exact absurd h (by decide)
        · intro h; exact absurd h (not_le.2 (by linarith))
    · by_cases h10 : s.stdDevGlobal > 10
      · rw [if_neg h30, if_neg h20, if_pos h10]
        refine ⟨?_, ?_, ?_, ?_⟩
        · constructor
          · intro h; exact absurd h (by decide)
          · intro h; exact absurd h h30
        · constructor
          · intro h; exact absurd h (by decide)
          · rintro ⟨h, -⟩; exact absurd h h20
        · exact ⟨fun _ => ⟨h10, not_lt.1 h20⟩, fun _ => rfl⟩
        · constructor
          · intro h; exact absurd h (by decide)
          · intro h; exact absurd h (not_le.2 h10)
      · rw [if_neg h30, if_neg h20, if_neg h10]
        refine ⟨?_, ?_, ?_, ?_⟩
        · constructor
          · intro h; exact absurd h (by decide)
          · intro h; exact absurd h h30
        · constructor
          · intro h; exact absurd h (by decide)
          · rintro ⟨h, -⟩; exact absurd h h20
        · constructor
          · intro h; exact absurd h (by decide)
          · rintro ⟨h, -⟩; exact absurd h h10
        · exact ⟨fun _ => not_lt.1 h10, fun _ => rfl⟩

/-- Witness of C5 on question 2 of the mock data: one response, `consensus`. -/
theorem getQuestionStats_controversy_witness :
    getQuestionStats Real.sqrt (mockResponses ℝ) 2 =
        some { avgAgreement := 20, avgImportance := 20, stdDevAgreement := 0,
               stdDevImportance := 0, stdDevGlobal := 0, controversy := "consensus",
               controversyLabel := "🤝 Consensus", controversyColor := "green" } ∧
      (("consensus" = "very_controversial" ↔ (0 : ℝ) > 30) ∧
        ("consensus" = "controversial" ↔ 20 < (0 : ℝ) ∧ (0 : ℝ) ≤ 30) ∧
        ("consensus" = "mixed" ↔ 10 < (0 : ℝ) ∧ (0 : ℝ) ≤ 20) ∧
        ("consensus" = "consensus" ↔ (0 : ℝ) ≤ 10)) :=
  have h : getQuestionStats Real.sqrt (mockResponses ℝ) 2 =
        some { avgAgreement := 20, avgImportance := 20, stdDevAgreement := 0,
               stdDevImportance := 0, stdDevGlobal := 0, controversy := "consensus",
               controversyLabel := "🤝 Consensus", controversyColor := "green" } := by
    have hq : getQuestionResponses (mockResponses ℝ) 2 = [mkResponse ℝ 3 2 "demo1" 20 20] := by
      simp [getQuestionResponses, mockResponses, mkResponse]
    simp only [getQuestionStats, hq, mkResponse, List.foldl, List.length]
    norm_num
  ⟨h, getQuestionStats_controversy.1 (mockResponses ℝ) 2 _ h⟩

/-! ## Lemmas on the distance of the user to the mean -/

/-- What `getUserResponse` finds is a response of the collection, to that
question and by that user. -/
theorem getUserResponse_some {α : Type} (responses : List (Response α)) (userId : String)
    (questionId : Nat) (r : Response α)
    (h : getUserResponse responses userId questionId = some r) :
    r ∈ responses ∧ r.question_id = questionId ∧ r.user_id = userId := by
  unfold getUserResponse at h
  have hp := List.find?_some h
  simp only [Bool.and_eq_true, decide_eq_true_eq] at hp
  exact ⟨List.mem_of_find?_eq_some h, hp.1, hp.2⟩

/-- A question to which the user has a response has statistics. -/
theorem getQuestionStats_of_getUserResponse {α : Type} [LinearOrderedField α] (sqrt : α → α)
    (responses : List (Response α)) (userId : String) (questionId : Nat) (r : Response α)
    (h : getUserResponse responses userId questionId = some r) :
    ∃ stats, getQuestionStats sqrt responses questionId = some stats := by
  obtain ⟨hmem, hq, -⟩ := getUserResponse_some responses userId questionId r h
  have hne : getQuestionResponses responses questionId ≠ [] :=
    (getQuestionResponses_ne_nil_iff responses questionId).2 ⟨r, hmem, hq⟩
  obtain ⟨s, hs, -⟩ := getQuestionStats_of_ne_nil sqrt responses questionId hne
  exact ⟨s, hs⟩

/-- Every entry of `allDistances` is the Euclidean distance of the user's
response to the mean of the corresponding question of `userResponses`: the
`return 0` of the source is not taken. -/
theorem allDistances_forall₂ {α : Type} [LinearOrderedField α] (sqrt : α → α)
    (responses : List (Response α)) (userId : String) (filteredQuestions : List Question) :
    List.Forall₂
      (fun q d => ∃ r stats, getUserResponse responses userId q.id = some r ∧
        getQuestionStats sqrt responses q.id = some stats ∧
        d = sqrt ((r.agreement - stats.avgAgreement) ^ 2
          + (r.importance - stats.avgImportance) ^ 2))
      (getGroupStats.userResponses responses userId filteredQuestions)
      (getGroupStats.allDistances sqrt responses userId filteredQuestions) := by
  unfold getGroupStats.allDistances
  rw [List.forall₂_map_right_iff, List.forall₂_same]
  intro q hq
  unfold getGroupStats.userResponses at hq
  have hsome := (List.mem_filter.1 hq).2
  obtain ⟨r, hr⟩ := Option.isSome_iff_exists.1 hsome
  obtain ⟨stats, hstats⟩ := getQuestionStats_of_getUserResponse sqrt responses userId q.id r hr
  exact ⟨r, stats, hr, hstats, by simp only [hr, hstats]⟩

theorem sqrt_850_bounds : ¬ Real.sqrt 850 < 25 ∧ Real.sqrt 850 < 40 := by
  constructor
  · rw [not_lt, Real.le_sqrt' (by norm_num)]; norm_num
  · rw [Real.sqrt_lt' (by norm_num)]; norm_num

/-- C6: when the user has the response `r` to `q` and `q` has the statistics
`stats`, the distance of the question list is
`sqrt ((r.agreement - stats.avgAgreement)^2 + (r.importance - stats.avgImportance)^2)`,
and so is every distance that `getGroupStats` computes; the user at `(30, 70)`
on mock question 1, of mean `(55, 55)`, is at distance `sqrt 850`. -/
theorem userDistance_euclidean :
    (∀ (responses : List (Response ℝ)) (userId : String) (q : Question)
        (r : Response ℝ) (stats : QuestionStats ℝ),
      getUserResponse responses userId q.id = some r →
      getQuestionStats Real.sqrt responses q.id = some stats →
      ∃ label color, QuestionList.userDistance Real.sqrt responses userId q =
        some (Real.sqrt ((r.agreement - stats.avgAgreement) ^ 2
          + (r.importance - stats.avgImportance) ^ 2), label, color)) ∧
    (∀ (responses : List (Response ℝ)) (userId : String) (filteredQuestions : List Question),
      List.Forall₂
        (fun q d => ∃ r stats, getUserResponse responses userId q.id = some r ∧
          getQuestionStats Real.sqrt responses q.id = some stats ∧
          d = Real.sqrt ((r.agreement - stats.avgAgreement) ^ 2
            + (r.importance - stats.avgImportance) ^ 2))
        (getGroupStats.userResponses responses userId filteredQuestions)
        (getGroupStats.allDistances Real.sqrt responses userId filteredQuestions)) ∧
    (getUserResponse (mockResponses ℝ) "demo1" 1 = some (mkResponse ℝ 1 1 "demo1" 30 70) ∧
      (∃ s, getQuestionStats Real.sqrt (mockResponses ℝ) 1 = some s ∧
        s.avgAgreement = 55 ∧ s.avgImportance = 55) ∧
      ((30 : ℝ) - 55) ^ 2 + ((70 : ℝ) - 55) ^ 2 = 850 ∧
      QuestionList.userDistance Real.sqrt (mockResponses ℝ) "demo1" (mkQuestion 1 "demo1") =
        some (Real.sqrt 850, "🔀 Position différente", "orange") ∧
      getGroupStats.allDistances Real.sqrt (mockResponses ℝ) "demo1" [mkQuestion 1 "demo1"] =
        [Real.sqrt 850]) := by
  have hu : getUserResponse (mockResponses ℝ) "demo1" 1 =
      some (mkResponse ℝ 1 1 "demo1" 30 70) := by
    simp [getUserResponse, mockResponses, mkResponse]
  refine ⟨?_, fun responses userId fq => allDistances_forall₂ Real.sqrt responses userId fq,
    hu, ⟨_, getQuestionStats_mock_1, rfl, rfl⟩, by norm_num, ?_, ?_⟩
  · intro responses userId q r stats hr hstats
    simp only [QuestionList.userDistance, hr, hstats]
    split_ifs
    · exact ⟨_, _, rfl⟩
    · exact ⟨_, _, rfl⟩
    · exact ⟨_, _, rfl⟩
    · exact ⟨_, _, rfl⟩
  · have h850 : ((30 : ℝ) - 55) ^ 2 + ((70 : ℝ) - 55) ^ 2 = 850 := by norm_num
    have h10 : ¬ Real.sqrt 850 < 10 := fun h => sqrt_850_bounds.1 (by linarith)
    simp only [QuestionList.userDistance, mkQuestion, hu, getQuestionStats_mock_1, mkResponse,
      h850, h10, sqrt_850_bounds.1, sqrt_850_bounds.2, if_true, if_false]
  · have h850 : ((30 : ℝ) - 55) ^ 2 + ((70 : ℝ) - 55) ^ 2 = 850 := by norm_num
    have hq : getGroupStats.userResponses (mockResponses ℝ) "demo1" [mkQuestion 1 "demo1"] =
        [mkQuestion 1 "demo1"] := by
      simp [getGroupStats.userResponses, getGroupStats.questionsWithResponses, mkQuestion, hu,
        getQuestionResponses_mock_1]
    simp only [getGroupStats.allDistances, hq, List.map, mkQuestion, hu, getQuestionStats_mock_1,
      mkResponse, h850]

/-- Witness of C6 for the user `demo1` on question 1 of the mock data. -/
theorem userDistance_euclidean_witness :
    getUserResponse (mockResponses ℝ) "demo1" (mkQuestion 1 "demo1").id =
        some (mkResponse ℝ 1 1 "demo1" 30 70) ∧
      ∃ label color, QuestionList.userDistance Real.sqrt (mockResponses ℝ) "demo1"
          (mkQuestion 1 "demo1") =
        some (Real.sqrt (((mkResponse ℝ 1 1 "demo1" 30 70).agreement - 55) ^ 2
          + ((mkResponse ℝ 1 1 "demo1" 30 70).importance - 55) ^ 2), label, color) :=
  ⟨userDistance_euclidean.2.2.1,
    userDistance_euclidean.1 (mockResponses ℝ) "demo1" (mkQuestion 1 "demo1")
      (mkResponse ℝ 1 1 "demo1" 30 70)
      { avgAgreement := 55, avgImportance := 55, stdDevAgreement := 25,
        stdDevImportance := 15, stdDevGlobal := 20, controversy := "mixed",
        controversyLabel := "🤔 Avis mitigés", controversyColor := "yellow" }
      userDistance_euclidean.2.2.1 getQuestionStats_mock_1⟩

/-- Without the falsy zero, the distance of `ResultsView` is the Euclidean
distance of the user's response to the computed mean. -/
theorem ResultsView_userDistance_of_ne_zero {α : Type} [LinearOrderedField α] (sqrt : α → α)
    (responses : List (Response α)) (userId : String) (selectedQuestion : Question)
    (r : Response α) (stats : QuestionStats α)
    (hr : getUserResponse responses userId selectedQuestion.id = some r)
    (hstats : getQuestionStats sqrt responses selectedQuestion.id = some stats)
    (hA : stats.avgAgreement ≠ 0) (hI : stats.avgImportance ≠ 0) :
    ResultsView.userDistance sqrt responses userId selectedQuestion =
      some (euclid sqrt r.agreement r.importance stats.avgAgreement stats.avgImportance) := by
  simp [ResultsView.userDistance, hr, hstats, jsOr, hA, hI, euclid]

/-- C7, at the failing input: the only response to question 1 is the user's,
at `(0, 0)`. The computed mean is `(0, 0)`, the user's own point, and the
question list gives the distance `0`, but `ResultsView` measures the distance
to `(50, 50)` and gives `sqrt 5000`, which is not `0`. -/
theorem ResultsView_userDistance_zero_mean :
    (∃ s, getQuestionStats Real.sqrt [mkResponse ℝ 1 1 "me" 0 0] 1 = some s ∧
      s.avgAgreement = 0 ∧ s.avgImportance = 0) ∧
    getUserResponse [mkResponse ℝ 1 1 "me" 0 0] "me" 1 = some (mkResponse ℝ 1 1 "me" 0 0) ∧
    QuestionList.userDistance Real.sqrt [mkResponse ℝ 1 1 "me" 0 0] "me" (mkQuestion 1 "me") =
      some (0, "🎯 Aligné avec la moyenne", "green") ∧
    ResultsView.userDistance Real.sqrt [mkResponse ℝ 1 1 "me" 0 0] "me" (mkQuestion 1 "me") =
      some (Real.sqrt 5000) ∧
    Real.sqrt 5000 ≠ 0 := by
  have hq : getQuestionResponses [mkResponse ℝ 1 1 "me" 0 0] 1 = [mkResponse ℝ 1 1 "me" 0 0] := by
    simp [getQuestionResponses, mkResponse]
  have hs : getQuestionStats Real.sqrt [mkResponse ℝ 1 1 "me" 0 0] 1 =
      some { avgAgreement := 0, avgImportance := 0, stdDevAgreement := 0,
             stdDevImportance := 0, stdDevGlobal := 0, controversy := "consensus",
             controversyLabel := "🤝 Consensus", controversyColor := "green" } := by
    simp only [getQuestionStats, hq, mkResponse, List.foldl, List.length]
    norm_num
  have hu : getUserResponse [mkResponse ℝ 1 1 "me" 0 0] "me" 1 =
      some (mkResponse ℝ 1 1 "me" 0 0) := by
    simp [getUserResponse, mkResponse]
  refine ⟨⟨_, hs, rfl, rfl⟩, hu, ?_, ?_, ?_⟩
  · simp only [QuestionList.userDistance, mkQuestion, hu, hs]
    norm_num [mkResponse]
  · simp only [ResultsView.userDistance, mkQuestion, hu, hs, Option.map, jsOr]
    norm_num [mkResponse]
  · rw [Ne, Real.sqrt_eq_zero']
    norm_num

/-! ## Lemmas on `getGroupStats` -/

/-- The answered questions are the questions to which some response of the
collection refers. -/
theorem questionsWithResponses_eq {α : Type} (responses : List (Response α))
    (filteredQuestions : List Question) :
    getGroupStats.questionsWithResponses responses filteredQuestions =
      filteredQuestions.filter (fun q => decide (∃ r ∈ responses, r.question_id = q.id)) := by
  unfold getGroupStats.questionsWithResponses
  apply List.filter_congr
  intro q _
  rw [decide_eq_decide, gt_iff_lt, List.length_pos, getQuestionResponses_ne_nil_iff]

/-- The closure `getUserResponse` finds a response exactly when the user has
one. -/
theorem getUserResponse_isSome_iff {α : Type} (responses : List (Response α)) (userId : String)
    (questionId : Nat) :
    (getUserResponse responses userId questionId).isSome ↔
      ∃ r ∈ responses, r.question_id = questionId ∧ r.user_id = userId := by
  simp [getUserResponse]

/-- The user-answered questions are the questions to which the user has a
response. -/
theorem userResponses_eq {α : Type} (responses : List (Response α)) (userId : String)
    (filteredQuestions : List Question) :
    getGroupStats.userResponses responses userId filteredQuestions =
      filteredQuestions.filter
        (fun q => decide (∃ r ∈ responses, r.question_id = q.id ∧ r.user_id = userId)) := by
  unfold getGroupStats.userResponses
  rw [questionsWithResponses_eq, List.filter_filter]
  apply List.filter_congr
  intro q _
  rw [← Bool.coe_iff_coe]
  simp only [Bool.and_eq_true, decide_eq_true_eq, getUserResponse_isSome_iff]
  constructor
  · exact fun h => h.1
  · rintro ⟨r, hr, hq, hu⟩
    exact ⟨⟨r, hr, hq, hu⟩, r, hr, hq⟩

/-- Every entry of `allStdDevs` is the `stdDevGlobal` of the statistics of the
corresponding answered question: the filter on `null` removes nothing. -/
theorem allStdDevs_forall₂ {α : Type} [LinearOrderedField α] (sqrt : α → α)
    (responses : List (Response α)) (filteredQuestions : List Question) :
    List.Forall₂
      (fun q sd => ∃ s, getQuestionStats sqrt responses q.id = some s ∧ sd = s.stdDevGlobal)
      (getGroupStats.questionsWithResponses responses filteredQuestions)
      (getGroupStats.allStdDevs sqrt responses filteredQuestions) := by
  unfold getGroupStats.allStdDevs
  have hall : ∀ q ∈ getGroupStats.questionsWithResponses responses filteredQuestions,
      ∃ s, getQuestionStats sqrt responses q.id = some s := by
    intro q hq
    unfold getGroupStats.questionsWithResponses at hq
    have h := (List.mem_filter.1 hq).2
    rw [decide_eq_true_eq, gt_iff_lt, List.length_pos] at h
    obtain ⟨s, hs, -⟩ := getQuestionStats_of_ne_nil sqrt responses q.id h
    exact ⟨s, hs⟩
  generalize getGroupStats.questionsWithResponses responses filteredQuestions = l at hall
  induction l with
  | nil => exact List.Forall₂.nil
  | cons q t ih =>
    obtain ⟨s, hs⟩ := hall q (List.mem_cons_self q t)
    have iht := ih (fun q' hq' => hall q' (List.mem_cons_of_mem q hq'))
    simp only [List.map_cons, hs, Option.isSome_some, List.filter_cons_of_pos,
      List.filterMap_cons_some (Option.map_some' _ _)]
    exact List.Forall₂.cons ⟨s, hs, rfl⟩ iht

/-- A `reduce` that adds the elements to the accumulator, started at `0`, is
the sum of the list. -/
theorem foldl_id_eq_sum {α : Type} [LinearOrderedField α] (l : List α) :
    l.foldl (fun sum d => sum + d) 0 = l.sum := by
  simpa using foldl_add_eq_sum (fun d : α => d) l

/-- The record that `getGroupStats` returns when some question is answered,
with every `reduce` written as a mean. -/
theorem getGroupStats_of_ne_nil {α : Type} [LinearOrderedField α] (sqrt : α → α)
    (responses : List (Response α)) (userId : String) (filteredQuestions : List Question)
    (h : getGroupStats.questionsWithResponses responses filteredQuestions ≠ []) :
    ∃ g, getGroupStats sqrt responses userId filteredQuestions = some g ∧
      g.avgStdDev = mean (getGroupStats.allStdDevs sqrt responses filteredQuestions) ∧
      g.cohesionLabel =
        (if g.avgStdDev < 10 then "Très forte" else if g.avgStdDev < 20 then "Forte"
         else if g.avgStdDev < 30 then "Modérée" else "Faible") ∧
      g.avgDistance =
        (if (getGroupStats.userResponses responses userId filteredQuestions).length > 0 then
          some (mean (getGroupStats.allDistances sqrt responses userId filteredQuestions))
         else none) ∧
      (∀ d, g.avgDistance = some d →
        g.userPositionLabel =
          (if d < 10 then "Mainstream" else if d < 20 then "Conformiste modéré"
           else if d < 30 then "Indépendant" else "Atypique")) ∧
      g.totalQuestions =
        (getGroupStats.questionsWithResponses responses filteredQuestions).length ∧
      g.userAnswered =
        (getGroupStats.userResponses responses userId filteredQuestions).length := by
  unfold getGroupStats
  simp only [List.length_eq_zero, h, if_false]
  refine ⟨_, rfl, ?_, ?_, ?_, ?_, rfl, rfl⟩
  · simp only [mean, foldl_id_eq_sum]
  · simp only [apply_ite Prod.fst]
  · by_cases hlen : (getGroupStats.userResponses responses userId filteredQuestions).length > 0
    · simp only [if_pos hlen, apply_ite Prod.fst, ite_self, mean, foldl_id_eq_sum]
    · simp only [if_neg hlen]
  · intro d hd
    by_cases hlen : (getGroupStats.userResponses responses userId filteredQuestions).length > 0
    · simp only [if_pos hlen, apply_ite Prod.fst, ite_self, Option.some.injEq] at hd
      simp only [if_pos hlen, hd, apply_ite Prod.fst, apply_ite Prod.snd]
    · simp only [if_neg hlen] at hd
      exact Option.noConfusion hd

/-- A label chosen by the chain of tests `x < 10`, `x < 20`, `x < 30` among
four distinct labels is the step function of `x` with these bands. -/
theorem label_step {α : Type} [LinearOrderedField α] (x : α) (l1 l2 l3 l4 lab : String)
    (hlab : lab = if x < 10 then l1 else if x < 20 then l2 else if x < 30 then l3 else l4)
    (h12 : l1 ≠ l2) (h13 : l1 ≠ l3) (h14 : l1 ≠ l4) (h23 : l2 ≠ l3) (h24 : l2 ≠ l4)
    (h34 : l3 ≠ l4) :
    (lab = l1 ↔ x < 10) ∧ (lab = l2 ↔ 10 ≤ x ∧ x < 20) ∧ (lab = l3 ↔ 20 ≤ x ∧ x < 30) ∧
      (lab = l4 ↔ 30 ≤ x) := by
  subst hlab
  by_cases h10 : x < 10
  · rw [if_pos h10]
    refine ⟨⟨fun _ => h10, fun _ => rfl⟩, ⟨fun h => absurd h h12, fun h => ?_⟩,
      ⟨fun h => absurd h h13, fun h => ?_⟩, ⟨fun h => absurd h h14, fun h => ?_⟩⟩
    · exact absurd h10 (not_lt.2 h.1)
    · exact absurd (lt_of_lt_of_le h10 (by norm_num)) (not_lt.2 h.1)
    · exact absurd (lt_of_lt_of_le h10 (by norm_num)) (not_lt.2 h)
  · rw [if_neg h10]
    by_cases h20 : x < 20
    · rw [if_pos h20]
      refine ⟨⟨fun h => absurd h (Ne.symm h12), fun h => absurd h h10⟩,
        ⟨fun _ => ⟨not_lt.1 h10, h20⟩, fun _ => rfl⟩,
        ⟨fun h => absurd h h23, fun h => ?_⟩, ⟨fun h => absurd h h24, fun h => ?_⟩⟩
      · exact absurd h20 (not_lt.2 h.1)
      · exact absurd (lt_of_lt_of_le h20 (by norm_num)) (not_lt.2 h)
    · rw [if_neg h20]
      by_cases h30 : x < 30
      · rw [if_pos h30]
        exact ⟨⟨fun h => absurd h (Ne.symm h13), fun h => absurd h h10⟩,
          ⟨fun h => absurd h (Ne.symm h23), fun h => absurd h.2 h20⟩,
          ⟨fun _ => ⟨not_lt.1 h20, h30⟩, fun _ => rfl⟩,
          ⟨fun h => absurd h h34, fun h => absurd h30 (not_lt.2 h)⟩⟩
      · rw [if_neg h30]
        exact ⟨⟨fun h => absurd h (Ne.symm h14), fun h => absurd h h10⟩,
          ⟨fun h => absurd h (Ne.symm h24), fun h => absurd h.2 h20⟩,
          ⟨fun h => absurd h (Ne.symm h34), fun h => absurd h.2 h30⟩,
          ⟨fun _ => not_lt.1 h30, fun _ => rfl⟩⟩

/-! ## Claims on `getGroupStats` -/

/-- C8: `getGroupStats` returns `null` exactly when no question of
`filteredQuestions` has a response, and a record exactly when one of them has;
being a total function it never faults. -/
theorem getGroupStats_null_iff {α : Type} [LinearOrderedField α] (sqrt : α → α)
    (responses : List (Response α)) (userId : String) (filteredQuestions : List Question) :
    (getGroupStats sqrt responses userId filteredQuestions = none ↔
        ∀ q ∈ filteredQuestions, ∀ r ∈ responses, r.question_id ≠ q.id) ∧
      ((∃ g, getGroupStats sqrt responses userId filteredQuestions = some g) ↔
        ∃ q ∈ filteredQuestions, ∃ r ∈ responses, r.question_id = q.id) := by
  have hnil : getGroupStats.questionsWithResponses responses filteredQuestions = [] ↔
      ∀ q ∈ filteredQuestions, ∀ r ∈ responses, r.question_id ≠ q.id := by
    rw [questionsWithResponses_eq, List.filter_eq_nil_iff]
    simp
  by_cases h : getGroupStats.questionsWithResponses responses filteredQuestions = []
  · have hnone : getGroupStats sqrt responses userId filteredQuestions = none := by
      unfold getGroupStats
      simp [h]
    refine ⟨⟨fun _ => hnil.1 h, fun _ => hnone⟩, ?_⟩
    constructor
    · rintro ⟨g, hg⟩
      rw [hnone] at hg
      exact Option.noConfusion hg
    · rintro ⟨q, hq, r, hr, hrq⟩
      exact absurd hrq (hnil.1 h q hq r hr)
  · obtain ⟨g, hg, -⟩ := getGroupStats_of_ne_nil sqrt responses userId filteredQuestions h
    refine ⟨⟨fun h' => ?_, fun h' => absurd (hnil.2 h') h⟩, ⟨fun _ => ?_, fun _ => ⟨g, hg⟩⟩⟩
    · rw [hg] at h'
      exact Option.noConfusion h'
    · by_contra hex
      apply h
      rw [hnil]
      intro q hq r hr hrq
      exact hex ⟨q, hq, r, hr, hrq⟩

/-- The statistics of a question answered `(10, 10)` and `(90, 90)`, second
question of `twoQuestionResponses`. -/
theorem getQuestionStats_two_2 :
    getQuestionStats Real.sqrt (twoQuestionResponses ℝ) 2 =
      some { avgAgreement := 50, avgImportance := 50, stdDevAgreement := 40,
             stdDevImportance := 40, stdDevGlobal := 40, controversy := "very_controversial",
             controversyLabel := "🔥 Très controversé", controversyColor := "red" } := by
  have hq : getQuestionResponses (twoQuestionResponses ℝ) 2 =
      [mkResponse ℝ 3 2 "demo1" 10 10, mkResponse ℝ 4 2 "demo2" 90 90] := by
    simp [getQuestionResponses, twoQuestionResponses, mkResponse]
  simp only [getQuestionStats, hq, mkResponse, List.foldl, List.length]
  norm_num [sqrt_1600]

/-- The statistics of the first question of `twoQuestionResponses`, answered
`(30, 70)` and `(80, 40)`. -/
theorem getQuestionStats_two_1 :
    getQuestionStats Real.sqrt (twoQuestionResponses ℝ) 1 =
      some { avgAgreement := 55, avgImportance := 55, stdDevAgreement := 25,
             stdDevImportance := 15, stdDevGlobal := 20, controversy := "mixed",
             controversyLabel := "🤔 Avis mitigés", controversyColor := "yellow" } := by
  have hq : getQuestionResponses (twoQuestionResponses ℝ) 1 =
      [mkResponse ℝ 1 1 "demo1" 30 70, mkResponse ℝ 2 1 "demo2" 80 40] := by
    simp [getQuestionResponses, twoQuestionResponses, mkResponse]
  simp only [getQuestionStats, hq, mkResponse, List.foldl, List.length]
  norm_num [sqrt_625, sqrt_225]

/-- C9: when `getGroupStats` returns a record, its `avgStdDev` is the sum of
the `stdDevGlobal` of the statistics of the answered questions divided by
their number, and the cohesion label is the step function of `avgStdDev` with
the bands `< 10`, `[10, 20)`, `[20, 30)` and `≥ 30`; two answered questions of
`stdDevGlobal` 20 and 40 give `avgStdDev = 30` and the label `Faible`. -/
theorem getGroupStats_cohesion :
    (∀ (responses : List (Response ℝ)) (userId : String) (filteredQuestions : List Question)
        (g : GroupStats ℝ),
      getGroupStats Real.sqrt responses userId filteredQuestions = some g →
      ∃ sds : List ℝ,
        List.Forall₂
          (fun q sd => ∃ s, getQuestionStats Real.sqrt responses q.id = some s ∧
            sd = s.stdDevGlobal)
          (filteredQuestions.filter (fun q => decide (∃ r ∈ responses, r.question_id = q.id)))
          sds ∧
        g.avgStdDev = sds.sum /
          (((filteredQuestions.filter
            (fun q => decide (∃ r ∈ responses, r.question_id = q.id))).length : ℕ) : ℝ) ∧
        (g.cohesionLabel = "Très forte" ↔ g.avgStdDev < 10) ∧
        (g.cohesionLabel = "Forte" ↔ 10 ≤ g.avgStdDev ∧ g.avgStdDev < 20) ∧
        (g.cohesionLabel = "Modérée" ↔ 20 ≤ g.avgStdDev ∧ g.avgStdDev < 30) ∧
        (g.cohesionLabel = "Faible" ↔ 30 ≤ g.avgStdDev)) ∧
    ((∃ s, getQuestionStats Real.sqrt (twoQuestionResponses ℝ) 1 = some s ∧
        s.stdDevGlobal = 20) ∧
      (∃ s, getQuestionStats Real.sqrt (twoQuestionResponses ℝ) 2 = some s ∧
        s.stdDevGlobal = 40) ∧
      ∃ g, getGroupStats Real.sqrt (twoQuestionResponses ℝ) "demo1"
          [mkQuestion 1 "demo1", mkQuestion 2 "demo2"] = some g ∧
        g.totalQuestions = 2 ∧ g.avgStdDev = 30 ∧ g.cohesionLabel = "Faible") := by
  constructor
  · intro responses userId filteredQuestions g hg
    have hne : getGroupStats.questionsWithResponses responses filteredQuestions ≠ [] := by
      intro h0
      unfold getGroupStats at hg
      simp [h0] at hg
    obtain ⟨g', hg', havg, hlab, -⟩ :=
      getGroupStats_of_ne_nil Real.sqrt responses userId filteredQuestions hne
    rw [hg] at hg'
    cases hg'
    have hF := allStdDevs_forall₂ Real.sqrt responses filteredQuestions
    have hlen := hF.length_eq
    rw [questionsWithResponses_eq] at hF hlen
    refine ⟨_, hF, ?_, label_step g.avgStdDev _ _ _ _ _ hlab
      (by decide) (by decide) (by decide) (by decide) (by decide) (by decide)⟩
    rw [havg, mean, hlen]
  · refine ⟨⟨_, getQuestionStats_two_1, rfl⟩, ⟨_, getQuestionStats_two_2, rfl⟩, ?_⟩
    have hq1 : getQuestionResponses (twoQuestionResponses ℝ) 1 ≠ [] := by
      simp [getQuestionResponses, twoQuestionResponses, mkResponse]
    have hq2 : getQuestionResponses (twoQuestionResponses ℝ) 2 ≠ [] := by
      simp [getQuestionResponses, twoQuestionResponses, mkResponse]
    have hqs : getGroupStats.questionsWithResponses (twoQuestionResponses ℝ)
        [mkQuestion 1 "demo1", mkQuestion 2 "demo2"] =
        [mkQuestion 1 "demo1", mkQuestion 2 "demo2"] := by
      simp [getGroupStats.questionsWithResponses, mkQuestion, List.length_pos, hq1, hq2]
    have hsd : getGroupStats.allStdDevs Real.sqrt (twoQuestionResponses ℝ)
        [mkQuestion 1 "demo1", mkQuestion 2 "demo2"] = [20, 40] := by
      simp [getGroupStats.allStdDevs, hqs]
      simp [mkQuestion, getQuestionStats_two_1, getQuestionStats_two_2]
    obtain ⟨g, hg, havg, hlab, -, -, htot, -⟩ :=
      getGroupStats_of_ne_nil Real.sqrt (twoQuestionResponses ℝ) "demo1"
        [mkQuestion 1 "demo1", mkQuestion 2 "demo2"] (by rw [hqs]; simp)
    have h30 : g.avgStdDev = 30 := by
      rw [havg, hsd]; norm_num [mean]
    refine ⟨g, hg, by rw [htot, hqs]; rfl, h30, ?_⟩
    rw [hlab, h30]
    norm_num

/-- The group statistics of `twoQuestionResponses` for a user without
response. -/
theorem getGroupStats_two_nobody :
    getGroupStats Real.sqrt (twoQuestionResponses ℝ) "nobody"
        [mkQuestion 1 "demo1", mkQuestion 2 "demo2"] =
      some (twoQuestionGroupStats ℝ) := by
  have hq1 : getQuestionResponses (twoQuestionResponses ℝ) 1 ≠ [] := by
    simp [getQuestionResponses, twoQuestionResponses, mkResponse]
  have hq2 : getQuestionResponses (twoQuestionResponses ℝ) 2 ≠ [] := by
    simp [getQuestionResponses, twoQuestionResponses, mkResponse]
  have hqs : getGroupStats.questionsWithResponses (twoQuestionResponses ℝ)
      [mkQuestion 1 "demo1", mkQuestion 2 "demo2"] =
      [mkQuestion 1 "demo1", mkQuestion 2 "demo2"] := by
    simp [getGroupStats.questionsWithResponses, mkQuestion, List.length_pos, hq1, hq2]
  have hsd : getGroupStats.allStdDevs Real.sqrt (twoQuestionResponses ℝ)
      [mkQuestion 1 "demo1", mkQuestion 2 "demo2"] = [20, 40] := by
    simp [getGroupStats.allStdDevs, hqs]
    simp [mkQuestion, getQuestionStats_two_1, getQuestionStats_two_2]
  have hur : getGroupStats.userResponses (twoQuestionResponses ℝ) "nobody"
      [mkQuestion 1 "demo1", mkQuestion 2 "demo2"] = [] := by
    simp [getGroupStats.userResponses, hqs, getUserResponse, twoQuestionResponses, mkResponse,
      mkQuestion]
  simp only [getGroupStats, hqs, hsd, hur, twoQuestionGroupStats]
  simp only [List.foldl, List.length]
  norm_num

/-- Witness of C9 on `twoQuestionResponses`, for a user without response. -/
theorem getGroupStats_cohesion_witness :
    getGroupStats Real.sqrt (twoQuestionResponses ℝ) "nobody"
        [mkQuestion 1 "demo1", mkQuestion 2 "demo2"] = some (twoQuestionGroupStats ℝ) ∧
    ∃ sds : List ℝ,
      List.Forall₂
        (fun q sd => ∃ s, getQuestionStats Real.sqrt (twoQuestionResponses ℝ) q.id = some s ∧
          sd = s.stdDevGlobal)
        ([mkQuestion 1 "demo1", mkQuestion 2 "demo2"].filter
          (fun q => decide (∃ r ∈ twoQuestionResponses ℝ, r.question_id = q.id)))
        sds ∧
      (twoQuestionGroupStats ℝ).avgStdDev = sds.sum /
        ((([mkQuestion 1 "demo1", mkQuestion 2 "demo2"].filter
          (fun q => decide (∃ r ∈ twoQuestionResponses ℝ, r.question_id = q.id))).length : ℕ)
            : ℝ) ∧
      ((twoQuestionGroupStats ℝ).cohesionLabel = "Très forte" ↔
        (twoQuestionGroupStats ℝ).avgStdDev < 10) ∧
      ((twoQuestionGroupStats ℝ).cohesionLabel = "Forte" ↔
        10 ≤ (twoQuestionGroupStats ℝ).avgStdDev ∧ (twoQuestionGroupStats ℝ).avgStdDev < 20) ∧
      ((twoQuestionGroupStats ℝ).cohesionLabel = "Modérée" ↔
        20 ≤ (twoQuestionGroupStats ℝ).avgStdDev ∧ (twoQuestionGroupStats ℝ).avgStdDev < 30) ∧
      ((twoQuestionGroupStats ℝ).cohesionLabel = "Faible" ↔
        30 ≤ (twoQuestionGroupStats ℝ).avgStdDev) :=
  ⟨getGroupStats_two_nobody,
    getGroupStats_cohesion.1 (twoQuestionResponses ℝ) "nobody"
      [mkQuestion 1 "demo1", mkQuestion 2 "demo2"] (twoQuestionGroupStats ℝ)
      getGroupStats_two_nobody⟩

/-- C10: when the user has a response to some question of `filteredQuestions`,
`getGroupStats` returns a record whose `avgDistance` is the sum, over the
questions to which the user has a response, of the Euclidean distance of that
response to the mean of the question, divided by the number of these
questions; and the user position label is the step function of `avgDistance`
with the bands `< 10`, `[10, 20)`, `[20, 30)` and `≥ 30`. -/
theorem getGroupStats_userPosition {α : Type} [LinearOrderedField α] (sqrt : α → α)
    (responses : List (Response α)) (userId : String) (filteredQuestions : List Question)
    (h : ∃ q ∈ filteredQuestions, ∃ r ∈ responses, r.question_id = q.id ∧ r.user_id = userId) :
    ∃ (g : GroupStats α) (ds : List α) (avgDistance : α),
      getGroupStats sqrt responses userId filteredQuestions = some g ∧
      List.Forall₂
        (fun q d => ∃ r stats, getUserResponse responses userId q.id = some r ∧
          getQuestionStats sqrt responses q.id = some stats ∧
          d = euclid sqrt r.agreement r.importance stats.avgAgreement stats.avgImportance)
        (filteredQuestions.filter
          (fun q => decide (∃ r ∈ responses, r.question_id = q.id ∧ r.user_id = userId)))
        ds ∧
      g.avgDistance = some avgDistance ∧
      avgDistance = ds.sum /
        (((filteredQuestions.filter
          (fun q => decide (∃ r ∈ responses, r.question_id = q.id ∧ r.user_id = userId))).length
            : ℕ) : α) ∧
      (g.userPositionLabel = "Mainstream" ↔ avgDistance < 10) ∧
      (g.userPositionLabel = "Conformiste modéré" ↔ 10 ≤ avgDistance ∧ avgDistance < 20) ∧
      (g.userPositionLabel = "Indépendant" ↔ 20 ≤ avgDistance ∧ avgDistance < 30) ∧
      (g.userPositionLabel = "Atypique" ↔ 30 ≤ avgDistance) := by
  obtain ⟨q, hq, r, hr, hrq, hru⟩ := h
  have hur : q ∈ getGroupStats.userResponses responses userId filteredQuestions := by
    rw [userResponses_eq, List.mem_filter, decide_eq_true_eq]
    exact ⟨hq, r, hr, hrq, hru⟩
  have hpos : (getGroupStats.userResponses responses userId filteredQuestions).length > 0 :=
    List.length_pos_of_mem hur
  have hne : getGroupStats.questionsWithResponses responses filteredQuestions ≠ [] := by
    unfold getGroupStats.userResponses at hur
    exact List.ne_nil_of_mem (List.mem_filter.1 hur).1
  obtain ⟨g, hg, -, -, hdist, hlab, -⟩ :=
    getGroupStats_of_ne_nil sqrt responses userId filteredQuestions hne
  rw [if_pos hpos] at hdist
  have hF := allDistances_forall₂ sqrt responses userId filteredQuestions
  have hlen := hF.length_eq
  rw [userResponses_eq] at hF hlen
  refine ⟨g, _, _, hg, hF, hdist, ?_, label_step _ _ _ _ _ _ (hlab _ hdist)
    (by decide) (by decide) (by decide) (by decide) (by decide) (by decide)⟩
  rw [mean, hlen]

/-- Witness of C10 for the user `demo1` on the mock data. -/
theorem getGroupStats_userPosition_witness :
    (∃ q ∈ [mkQuestion 1 "demo1", mkQuestion 2 "demo2", mkQuestion 3 "me"],
      ∃ r ∈ mockResponses ℝ, r.question_id = q.id ∧ r.user_id = "demo1") ∧
    ∃ (g : GroupStats ℝ) (ds : List ℝ) (avgDistance : ℝ),
      getGroupStats Real.sqrt (mockResponses ℝ) "demo1"
        [mkQuestion 1 "demo1", mkQuestion 2 "demo2", mkQuestion 3 "me"] = some g ∧
      List.Forall₂
        (fun q d => ∃ r stats, getUserResponse (mockResponses ℝ) "demo1" q.id = some r ∧
          getQuestionStats Real.sqrt (mockResponses ℝ) q.id = some stats ∧
          d = euclid Real.sqrt r.agreement r.importance stats.avgAgreement stats.avgImportance)
        ([mkQuestion 1 "demo1", mkQuestion 2 "demo2", mkQuestion 3 "me"].filter
          (fun q => decide (∃ r ∈ mockResponses ℝ, r.question_id = q.id ∧ r.user_id = "demo1")))
        ds ∧
      g.avgDistance = some avgDistance ∧
      avgDistance = ds.sum /
        ((([mkQuestion 1 "demo1", mkQuestion 2 "demo2", mkQuestion 3 "me"].filter
          (fun q => decide
            (∃ r ∈ mockResponses ℝ, r.question_id = q.id ∧ r.user_id = "demo1"))).length
            : ℕ) : ℝ) ∧
      (g.userPositionLabel = "Mainstream" ↔ avgDistance < 10) ∧
      (g.userPositionLabel = "Conformiste modéré" ↔ 10 ≤ avgDistance ∧ avgDistance < 20) ∧
      (g.userPositionLabel = "Indépendant" ↔ 20 ≤ avgDistance ∧ avgDistance < 30) ∧
      (g.userPositionLabel = "Atypique" ↔ 30 ≤ avgDistance) :=
  have h : ∃ q ∈ [mkQuestion 1 "demo1", mkQuestion 2 "demo2", mkQuestion 3 "me"],
      ∃ r ∈ mockResponses ℝ, r.question_id = q.id ∧ r.user_id = "demo1" :=
    ⟨mkQuestion 1 "demo1", by simp, mkResponse ℝ 1 1 "demo1" 30 70,
      by simp [mockResponses, mkResponse], rfl, rfl⟩
  ⟨h, getGroupStats_userPosition Real.sqrt (mockResponses ℝ) "demo1"
    [mkQuestion 1 "demo1", mkQuestion 2 "demo2", mkQuestion 3 "me"] h⟩

/-! ## Further lemmas and claims on `getGroupStats` -/

/-- A returned record means that some question is answered. -/
theorem questionsWithResponses_ne_nil_of_some {α : Type} [LinearOrderedField α] (sqrt : α → α)
    (responses : List (Response α)) (userId : String) (filteredQuestions : List Question)
    (g : GroupStats α) (hg : getGroupStats sqrt responses userId filteredQuestions = some g) :
    getGroupStats.questionsWithResponses responses filteredQuestions ≠ [] := by
  intro h0
  unfold getGroupStats at hg
  simp [h0] at hg

/-- The cohesion fields of the returned record do not depend on the user. -/
theorem getGroupStats_cohesion_fields_eq {α : Type} [LinearOrderedField α] (sqrt : α → α)
    (responses : List (Response α)) (userId userId' : String)
    (filteredQuestions : List Question) (g g' : GroupStats α)
    (hg : getGroupStats sqrt responses userId filteredQuestions = some g)
    (hg' : getGroupStats sqrt responses userId' filteredQuestions = some g') :
    g'.avgStdDev = g.avgStdDev ∧ g'.cohesionLabel = g.cohesionLabel ∧
      g'.cohesionIcon = g.cohesionIcon ∧ g'.cohesionColor = g.cohesionColor ∧
      g'.cohesionDescription = g.cohesionDescription := by
  have hne := questionsWithResponses_ne_nil_of_some sqrt responses userId filteredQuestions g hg
  unfold getGroupStats at hg hg'
  simp only [List.length_eq_zero, hne, if_false, Option.some.injEq] at hg hg'
  subst hg
  subst hg'
  exact ⟨rfl, rfl, rfl, rfl, rfl⟩

/-- Without user-answered question the user-position fields keep their initial
values. -/
theorem getGroupStats_userPosition_of_nil {α : Type} [LinearOrderedField α] (sqrt : α → α)
    (responses : List (Response α)) (userId : String) (filteredQuestions : List Question)
    (g : GroupStats α) (hg : getGroupStats sqrt responses userId filteredQuestions = some g)
    (hnil : getGroupStats.userResponses responses userId filteredQuestions = []) :
    g.avgDistance = none ∧ g.userPositionLabel = "" ∧ g.userPositionIcon = "" ∧
      g.userPositionColor = "" ∧ g.userPositionDescription = "" := by
  have hne := questionsWithResponses_ne_nil_of_some sqrt responses userId filteredQuestions g hg
  unfold getGroupStats at hg
  simp only [List.length_eq_zero, hne, if_false, Option.some.injEq, hnil, List.length_nil,
    gt_iff_lt, lt_self_iff_false] at hg
  subst hg
  exact ⟨rfl, rfl, rfl, rfl, rfl⟩

/-- C11, as stated, fails: on `twoQuestionResponses` the user `nobody` has no
response and both questions are answered, yet the returned object has the
field `userPositionLabel` with the empty string as value, which is not
`null`. -/
theorem getGroupStats_userPosition_not_null :
    getGroupStats Real.sqrt (twoQuestionResponses ℝ) "nobody"
        [mkQuestion 1 "demo1", mkQuestion 2 "demo2"] = some (twoQuestionGroupStats ℝ) ∧
      (∀ r ∈ twoQuestionResponses ℝ, r.user_id ≠ "nobody") ∧
      ("userPositionLabel", JsValue.string "") ∈
        (twoQuestionGroupStats ℝ).userAlignmentFields ∧
      ¬ ∀ f ∈ (twoQuestionGroupStats ℝ).userAlignmentFields, f.2 = JsValue.null := by
  have hmem : ("userPositionLabel", JsValue.string "") ∈
      (twoQuestionGroupStats ℝ).userAlignmentFields := by
    simp [GroupStats.userAlignmentFields, twoQuestionGroupStats]
  refine ⟨getGroupStats_two_nobody, ?_, hmem, fun hall => ?_⟩
  · simp [twoQuestionResponses, mkResponse]
  · exact JsValue.noConfusion (hall _ hmem)

/-- C11, amended: when some question is answered and the user has no response
to any question of `filteredQuestions`, `getGroupStats` returns a record; its
`avgStdDev` and cohesion label, icon, color and description are those returned
for every other user; its `avgDistance` is `null` and its user-position label,
icon, color and description are the empty string. -/
theorem getGroupStats_no_user_response {α : Type} [LinearOrderedField α] (sqrt : α → α)
    (responses : List (Response α)) (userId : String) (filteredQuestions : List Question)
    (hans : ∃ q ∈ filteredQuestions, ∃ r ∈ responses, r.question_id = q.id)
    (hno : ∀ q ∈ filteredQuestions, ∀ r ∈ responses, r.question_id = q.id → r.user_id ≠ userId) :
    ∃ g, getGroupStats sqrt responses userId filteredQuestions = some g ∧
      (∀ userId', ∃ g', getGroupStats sqrt responses userId' filteredQuestions = some g' ∧
        g'.avgStdDev = g.avgStdDev ∧ g'.cohesionLabel = g.cohesionLabel ∧
        g'.cohesionIcon = g.cohesionIcon ∧ g'.cohesionColor = g.cohesionColor ∧
        g'.cohesionDescription = g.cohesionDescription) ∧
      g.avgDistance = none ∧ g.userPositionLabel = "" ∧ g.userPositionIcon = "" ∧
      g.userPositionColor = "" ∧ g.userPositionDescription = "" := by
  have hne : getGroupStats.questionsWithResponses responses filteredQuestions ≠ [] := by
    obtain ⟨q, hq, r, hr, hrq⟩ := hans
    rw [questionsWithResponses_eq]
    apply List.ne_nil_of_mem (a := q)
    rw [List.mem_filter, decide_eq_true_eq]
    exact ⟨hq, r, hr, hrq⟩
  have hnil : getGroupStats.userResponses responses userId filteredQuestions = [] := by
    rw [userResponses_eq, List.filter_eq_nil_iff]
    intro q hq
    rw [decide_eq_true_eq]
    rintro ⟨r, hr, hrq, hru⟩
    exact hno q hq r hr hrq hru
  obtain ⟨g, hg, -⟩ := getGroupStats_of_ne_nil sqrt responses userId filteredQuestions hne
  refine ⟨g, hg, fun userId' => ?_,
    getGroupStats_userPosition_of_nil sqrt responses userId filteredQuestions g hg hnil⟩
  obtain ⟨g', hg', -⟩ := getGroupStats_of_ne_nil sqrt responses userId' filteredQuestions hne
  exact ⟨g', hg',
    getGroupStats_cohesion_fields_eq sqrt responses userId userId' filteredQuestions g g' hg hg'⟩

/-- Witness of the amended C11 for the user `nobody` on
`twoQuestionResponses`. -/
theorem getGroupStats_no_user_response_witness :
    ((∃ q ∈ [mkQuestion 1 "demo1", mkQuestion 2 "demo2"],
        ∃ r ∈ twoQuestionResponses ℝ, r.question_id = q.id) ∧
      (∀ q ∈ [mkQuestion 1 "demo1", mkQuestion 2 "demo2"],
        ∀ r ∈ twoQuestionResponses ℝ, r.question_id = q.id → r.user_id ≠ "nobody")) ∧
    ∃ g, getGroupStats Real.sqrt (twoQuestionResponses ℝ) "nobody"
        [mkQuestion 1 "demo1", mkQuestion 2 "demo2"] = some g ∧
      (∀ userId', ∃ g', getGroupStats Real.sqrt (twoQuestionResponses ℝ) userId'
          [mkQuestion 1 "demo1", mkQuestion 2 "demo2"] = some g' ∧
        g'.avgStdDev = g.avgStdDev ∧ g'.cohesionLabel = g.cohesionLabel ∧
        g'.cohesionIcon = g.cohesionIcon ∧ g'.cohesionColor = g.cohesionColor ∧
        g'.cohesionDescription = g.cohesionDescription) ∧
      g.avgDistance = none ∧ g.userPositionLabel = "" ∧ g.userPositionIcon = "" ∧
      g.userPositionColor = "" ∧ g.userPositionDescription = "" :=
  have hans : ∃ q ∈ [mkQuestion 1 "demo1", mkQuestion 2 "demo2"],
      ∃ r ∈ twoQuestionResponses ℝ, r.question_id = q.id :=
    ⟨mkQuestion 1 "demo1", by simp, mkResponse ℝ 1 1 "demo1" 30 70,
      by simp [twoQuestionResponses], rfl⟩
  have hno : ∀ q ∈ [mkQuestion 1 "demo1", mkQuestion 2 "demo2"],
      ∀ r ∈ twoQuestionResponses ℝ, r.question_id = q.id → r.user_id ≠ "nobody" := by
    intro q _ r hr _
    simp only [twoQuestionResponses, List.mem_cons, List.mem_singleton, List.not_mem_nil,
      or_false] at hr
    rcases hr with rfl | rfl | rfl | rfl <;> simp [mkResponse]
  ⟨⟨hans, hno⟩, getGroupStats_no_user_response Real.sqrt (twoQuestionResponses ℝ) "nobody"
    [mkQuestion 1 "demo1", mkQuestion 2 "demo2"] hans hno⟩

/-- C12: in a returned record `totalQuestions` is the number of questions of
`filteredQuestions` with a response, `userAnswered` the number of those to
which the user has a response, and `0 ≤ userAnswered ≤ totalQuestions` with
`totalQuestions ≥ 1`. -/
theorem getGroupStats_counts {α : Type} [LinearOrderedField α] (sqrt : α → α)
    (responses : List (Response α)) (userId : String) (filteredQuestions : List Question)
    (g : GroupStats α) (hg : getGroupStats sqrt responses userId filteredQuestions = some g) :
    g.totalQuestions =
        (filteredQuestions.filter
          (fun q => decide (∃ r ∈ responses, r.question_id = q.id))).length ∧
      g.userAnswered =
        ((filteredQuestions.filter
          (fun q => decide (∃ r ∈ responses, r.question_id = q.id))).filter
            (fun q => decide
              (∃ r ∈ responses, r.question_id = q.id ∧ r.user_id = userId))).length ∧
      0 ≤ g.userAnswered ∧ g.userAnswered ≤ g.totalQuestions ∧ g.totalQuestions ≥ 1 := by
  have hne := questionsWithResponses_ne_nil_of_some sqrt responses userId filteredQuestions g hg
  obtain ⟨g', hg', -, -, -, -, htot, hans⟩ :=
    getGroupStats_of_ne_nil sqrt responses userId filteredQuestions hne
  rw [hg] at hg'
  cases hg'
  have hur : getGroupStats.userResponses responses userId filteredQuestions =
      (getGroupStats.questionsWithResponses responses filteredQuestions).filter
        (fun q => decide (∃ r ∈ responses, r.question_id = q.id ∧ r.user_id = userId)) := by
    unfold getGroupStats.userResponses
    apply List.filter_congr
    intro q _
    rw [← Bool.coe_iff_coe, getUserResponse_isSome_iff, decide_eq_true_eq]
  have hle : g.userAnswered ≤ g.totalQuestions := by
    rw [htot, hans, hur]
    exact List.length_filter_le _ _
  have hpos : g.totalQuestions ≥ 1 := by
    rw [htot]
    exact List.length_pos.2 hne
  rw [hur, questionsWithResponses_eq] at hans
  rw [questionsWithResponses_eq] at htot
  exact ⟨htot, hans, Nat.zero_le _, hle, hpos⟩

/-- Witness of C12 on `twoQuestionResponses`, for a user without response. -/
theorem getGroupStats_counts_witness :
    getGroupStats Real.sqrt (twoQuestionResponses ℝ) "nobody"
        [mkQuestion 1 "demo1", mkQuestion 2 "demo2"] = some (twoQuestionGroupStats ℝ) ∧
    ((twoQuestionGroupStats ℝ).totalQuestions =
        ([mkQuestion 1 "demo1", mkQuestion 2 "demo2"].filter
          (fun q => decide (∃ r ∈ twoQuestionResponses ℝ, r.question_id = q.id))).length ∧
      (twoQuestionGroupStats ℝ).userAnswered =
        (([mkQuestion 1 "demo1", mkQuestion 2 "demo2"].filter
          (fun q => decide (∃ r ∈ twoQuestionResponses ℝ, r.question_id = q.id))).filter
            (fun q => decide
              (∃ r ∈ twoQuestionResponses ℝ,
                r.question_id = q.id ∧ r.user_id = "nobody"))).length ∧
      0 ≤ (twoQuestionGroupStats ℝ).userAnswered ∧
      (twoQuestionGroupStats ℝ).userAnswered ≤ (twoQuestionGroupStats ℝ).totalQuestions ∧
      (twoQuestionGroupStats ℝ).totalQuestions ≥ 1) :=
  ⟨getGroupStats_two_nobody,
    getGroupStats_counts Real.sqrt (twoQuestionResponses ℝ) "nobody"
      [mkQuestion 1 "demo1", mkQuestion 2 "demo2"] (twoQuestionGroupStats ℝ)
      getGroupStats_two_nobody⟩

/-! ## Lemmas and claims on `handleSubmitResponse` -/

/-- When `findIndex` finds nothing, `handleSubmitResponse` appends the new
response. -/
theorem handleSubmitResponse_of_none {α : Type} (responses : List (Response α))
    (selectedQuestion : Question) (userId : String) (agreement importance : α) (now : Nat)
    (h : ¬ ∃ r ∈ responses, r.question_id = selectedQuestion.id ∧ r.user_id = userId) :
    handleSubmitResponse responses selectedQuestion userId agreement importance now =
      responses ++
        [{ id := now, question_id := selectedQuestion.id, user_id := userId,
           agreement := agreement, importance := importance, created_at := some now,
           updated_at := none }] := by
  have hnone : responses.findIdx?
      (fun r => decide (r.question_id = selectedQuestion.id) && decide (r.user_id = userId))
        = none := by
    rw [List.findIdx?_eq_none_iff]
    intro x hx
    by_contra hp
    simp only [Bool.not_eq_false, Bool.and_eq_true, decide_eq_true_eq] at hp
    exact h ⟨x, hx, hp.1, hp.2⟩
  simp only [handleSubmitResponse, hnone]

/-- When the user has a response to the selected question, `handleSubmitResponse`
overwrites the first such response, which is the one `getUserResponse`
returns. -/
theorem handleSubmitResponse_of_some {α : Type} (responses : List (Response α))
    (selectedQuestion : Question) (userId : String) (agreement importance : α) (now : Nat)
    (h : ∃ r ∈ responses, r.question_id = selectedQuestion.id ∧ r.user_id = userId) :
    ∃ (i : Nat) (r : Response α), responses[i]? = some r ∧
      getUserResponse responses userId selectedQuestion.id = some r ∧
      r.question_id = selectedQuestion.id ∧ r.user_id = userId ∧
      handleSubmitResponse responses selectedQuestion userId agreement importance now =
        responses.set i
          { r with agreement := agreement, importance := importance,
                   updated_at := some now } := by
  obtain ⟨x, hx, hxq, hxu⟩ := h
  have hex : ∃ x, x ∈ responses ∧
      (fun r : Response α =>
        decide (r.question_id = selectedQuestion.id) && decide (r.user_id = userId)) x = true :=
    ⟨x, hx, by simp [hxq, hxu]⟩
  have hsome := List.findIdx?_eq_some_of_exists hex
  obtain ⟨hlt, -⟩ := List.findIdx?_eq_some_iff_findIdx_eq.1 hsome
  have hp := List.findIdx_getElem (w := hlt)
  simp only [Bool.and_eq_true, decide_eq_true_eq] at hp
  have hget : responses[responses.findIdx
      (fun r => decide (r.question_id = selectedQuestion.id) && decide (r.user_id = userId))]?
        = some (responses[responses.findIdx
      (fun r => decide (r.question_id = selectedQuestion.id) && decide (r.user_id = userId))]) :=
    List.getElem?_eq_getElem hlt
  refine ⟨_, _, hget, ?_, hp.1, hp.2, ?_⟩
  · unfold getUserResponse
    clear hget hp hsome hex hx hxq hxu
    induction responses with
    | nil => simp at hlt
    | cons a t ih =>
      by_cases ha : (decide (a.question_id = selectedQuestion.id) && decide (a.user_id = userId))
          = true
      · simp [List.find?_cons, List.findIdx_cons, ha]
      · simp only [Bool.not_eq_true] at ha
        simp only [List.findIdx_cons, ha, cond_false, List.length_cons,
          Nat.add_lt_add_iff_right] at hlt
        simp only [List.find?_cons, ha, List.findIdx_cons, cond_false, List.getElem_cons_succ]
        exact ih hlt
  · simp only [handleSubmitResponse, hsome, hget]

/-- Writing at a position a response with the same value of `f` as the one it
replaces leaves the list of the values of `f` unchanged. -/
theorem map_set_of_eq {α β : Type} (f : Response α → β) (l : List (Response α)) (i : Nat)
    (r r' : Response α) (hr : l[i]? = some r) (hf : f r' = f r) :
    (l.set i r').map f = l.map f := by
  apply List.ext_getElem?
  intro j
  rw [List.getElem?_map, List.getElem?_set]
  split
  · next hij =>
    subst hij
    split
    · next hlt => rw [List.getElem?_map, hr, Option.map_some', Option.map_some', hf]
    · next hnlt =>
      rw [List.getElem?_map, List.getElem?_eq_none (not_lt.1 hnlt)]
  · rw [List.getElem?_map]

/-- The number of responses of a question is the number of occurrences of its
identifier among the `question_id`s. -/
theorem length_getQuestionResponses {α : Type} (l : List (Response α)) (questionId : Nat) :
    (getQuestionResponses l questionId).length =
      (l.map (fun r => r.question_id)).count questionId := by
  unfold getQuestionResponses
  rw [List.count, List.countP_map, List.countP_eq_length_filter]
  congr 1

/-- C13: the mock responses have at most one response per
`(question_id, user_id)` pair; `handleSubmitResponse` preserves this
invariant for every `agreement` and `importance`; when the user already has a
response to the selected question the number of responses, of that question
and overall, is unchanged, and otherwise both grow by one. -/
theorem handleSubmitResponse_onePerPair {α : Type} [LinearOrderedField α]
    (responses : List (Response α)) (selectedQuestion : Question) (userId : String)
    (agreement importance : α) (now : Nat) :
    OnePerPair (mockResponses α) ∧
    (OnePerPair responses →
      OnePerPair
        (handleSubmitResponse responses selectedQuestion userId agreement importance now)) ∧
    ((∃ r ∈ responses, r.question_id = selectedQuestion.id ∧ r.user_id = userId) →
      (handleSubmitResponse responses selectedQuestion userId agreement importance now).length
          = responses.length ∧
        (getQuestionResponses
          (handleSubmitResponse responses selectedQuestion userId agreement importance now)
          selectedQuestion.id).length
          = (getQuestionResponses responses selectedQuestion.id).length) ∧
    ((¬ ∃ r ∈ responses, r.question_id = selectedQuestion.id ∧ r.user_id = userId) →
      (handleSubmitResponse responses selectedQuestion userId agreement importance now).length
          = responses.length + 1 ∧
        (getQuestionResponses
          (handleSubmitResponse responses selectedQuestion userId agreement importance now)
          selectedQuestion.id).length
          = (getQuestionResponses responses selectedQuestion.id).length + 1) := by
  refine ⟨?_, ?_, ?_, ?_⟩
  · simp [OnePerPair, mockResponses]
  · intro hinv
    by_cases h : ∃ r ∈ responses, r.question_id = selectedQuestion.id ∧ r.user_id = userId
    · obtain ⟨i, r, hir, -, -, -, hnew⟩ :=
        handleSubmitResponse_of_some responses selectedQuestion userId agreement importance now h
      unfold OnePerPair at hinv ⊢
      rw [hnew, map_set_of_eq (fun r => (r.question_id, r.user_id)) responses i r
        { r with agreement := agreement, importance := importance, updated_at := some now }
        hir rfl]
      exact hinv
    · rw [handleSubmitResponse_of_none responses selectedQuestion userId agreement importance
        now h]
      unfold OnePerPair at hinv ⊢
      rw [List.map_append, List.map_singleton, List.nodup_append]
      refine ⟨hinv, List.nodup_singleton _, ?_⟩
      intro k hmem hk
      rw [List.mem_singleton] at hk
      subst hk
      obtain ⟨x, hx, hkey⟩ := List.mem_map.1 hmem
      simp only [Prod.mk.injEq] at hkey
      exact h ⟨x, hx, hkey.1, hkey.2⟩
  · intro h
    obtain ⟨i, r, hir, -, -, -, hnew⟩ :=
      handleSubmitResponse_of_some responses selectedQuestion userId agreement importance now h
    rw [hnew]
    refine ⟨List.length_set _ _ _, ?_⟩
    rw [length_getQuestionResponses, length_getQuestionResponses,
      map_set_of_eq (fun r => r.question_id) responses i r
        { r with agreement := agreement, importance := importance, updated_at := some now }
        hir rfl]
  · intro h
    rw [handleSubmitResponse_of_none responses selectedQuestion userId agreement importance
      now h]
    refine ⟨by simp, ?_⟩
    simp [getQuestionResponses, List.filter_append]

/-- Witness of C13: on the mock data the user `demo1` resubmits a response to
question 1. -/
theorem handleSubmitResponse_onePerPair_witness :
    (OnePerPair (mockResponses ℝ) ∧
      ∃ r ∈ mockResponses ℝ, r.question_id = (mkQuestion 1 "demo1").id ∧ r.user_id = "demo1") ∧
    OnePerPair (handleSubmitResponse (mockResponses ℝ) (mkQuestion 1 "demo1") "demo1" 10 90 7) ∧
    (handleSubmitResponse (mockResponses ℝ) (mkQuestion 1 "demo1") "demo1" 10 90 7).length
      = (mockResponses ℝ).length ∧
    (getQuestionResponses
        (handleSubmitResponse (mockResponses ℝ) (mkQuestion 1 "demo1") "demo1" 10 90 7)
        (mkQuestion 1 "demo1").id).length
      = (getQuestionResponses (mockResponses ℝ) (mkQuestion 1 "demo1").id).length :=
  have h := handleSubmitResponse_onePerPair (mockResponses ℝ) (mkQuestion 1 "demo1") "demo1"
    10 90 7
  have hex : ∃ r ∈ mockResponses ℝ,
      r.question_id = (mkQuestion 1 "demo1").id ∧ r.user_id = "demo1" :=
    ⟨mkResponse ℝ 1 1 "demo1" 30 70, by simp [mockResponses, mkResponse], rfl, rfl⟩
  ⟨⟨h.1, hex⟩, h.2.1 h.1, h.2.2.1 hex⟩

/-- C14: when the user already has a response to the selected question,
`handleSubmitResponse` keeps the length and every response at another
position, and the response `r` of the user becomes a response with the same
`id`, `question_id`, `user_id` and `created_at`, the submitted `agreement` and
`importance`, and `updated_at` set; when the submitted pair is the one of `r`,
the new collection is the old one with only `updated_at` of `r` changed. -/
theorem handleSubmitResponse_update_frame {α : Type} (responses : List (Response α))
    (selectedQuestion : Question) (userId : String) (agreement importance : α) (now : Nat)
    (h : ∃ r ∈ responses, r.question_id = selectedQuestion.id ∧ r.user_id = userId) :
    ∃ (i : Nat) (r r' : Response α),
      responses[i]? = some r ∧
      getUserResponse responses userId selectedQuestion.id = some r ∧
      (handleSubmitResponse responses selectedQuestion userId agreement importance now)[i]?
        = some r' ∧
      r'.id = r.id ∧ r'.question_id = r.question_id ∧ r'.user_id = r.user_id ∧
      r'.created_at = r.created_at ∧
      r'.agreement = agreement ∧ r'.importance = importance ∧ r'.updated_at = some now ∧
      (handleSubmitResponse responses selectedQuestion userId agreement importance now).length
        = responses.length ∧
      (∀ j, j ≠ i →
        (handleSubmitResponse responses selectedQuestion userId agreement importance now)[j]?
          = responses[j]?) ∧
      (r.agreement = agreement → r.importance = importance →
        handleSubmitResponse responses selectedQuestion userId agreement importance now
          = responses.set i { r with updated_at := some now }) := by
  obtain ⟨i, r, hir, hget, -, -, hnew⟩ :=
    handleSubmitResponse_of_some responses selectedQuestion userId agreement importance now h
  have hlt : i < responses.length := by
    by_contra hge
    rw [List.getElem?_eq_none (not_lt.1 hge)] at hir
    exact Option.noConfusion hir
  refine ⟨i, r, ({ r with agreement := agreement, importance := importance,
                          updated_at := some now } : Response α), hir, hget, ?_, rfl, rfl, rfl, rfl, rfl, rfl, rfl, ?_, ?_, ?_⟩
  · rw [hnew, List.getElem?_set, if_pos rfl, if_pos hlt]
  · rw [hnew, List.length_set]
  · intro j hj
    rw [hnew, List.getElem?_set, if_neg (Ne.symm hj)]
  · intro ha hi
    rw [hnew, ← ha, ← hi]

/-- Witness of C14: on the mock data the user `demo1` resubmits `(30, 70)` to
question 1. -/
theorem handleSubmitResponse_update_frame_witness :
    (∃ r ∈ mockResponses ℝ, r.question_id = (mkQuestion 1 "demo1").id ∧ r.user_id = "demo1") ∧
    ∃ (i : Nat) (r r' : Response ℝ),
      (mockResponses ℝ)[i]? = some r ∧
      getUserResponse (mockResponses ℝ) "demo1" (mkQuestion 1 "demo1").id = some r ∧
      (handleSubmitResponse (mockResponses ℝ) (mkQuestion 1 "demo1") "demo1" 30 70 7)[i]?
        = some r' ∧
      r'.id = r.id ∧ r'.question_id = r.question_id ∧ r'.user_id = r.user_id ∧
      r'.created_at = r.created_at ∧
      r'.agreement = 30 ∧ r'.importance = 70 ∧ r'.updated_at = some 7 ∧
      (handleSubmitResponse (mockResponses ℝ) (mkQuestion 1 "demo1") "demo1" 30 70 7).length
        = (mockResponses ℝ).length ∧
      (∀ j, j ≠ i →
        (handleSubmitResponse (mockResponses ℝ) (mkQuestion 1 "demo1") "demo1" 30 70 7)[j]?
          = (mockResponses ℝ)[j]?) ∧
      (r.agreement = 30 → r.importance = 70 →
        handleSubmitResponse (mockResponses ℝ) (mkQuestion 1 "demo1") "demo1" 30 70 7
          = (mockResponses ℝ).set i { r with updated_at := some 7 }) :=
  have hex : ∃ r ∈ mockResponses ℝ,
      r.question_id = (mkQuestion 1 "demo1").id ∧ r.user_id = "demo1" :=
    ⟨mkResponse ℝ 1 1 "demo1" 30 70, by simp [mockResponses, mkResponse], rfl, rfl⟩
  ⟨hex, handleSubmitResponse_update_frame (mockResponses ℝ) (mkQuestion 1 "demo1") "demo1"
    30 70 7 hex⟩

/-! ## Claims on `handleDeleteQuestion` and on the creator guard -/

/-- C15: after a confirmed `handleDeleteQuestion questionId` no question has
that `id` and no response that `question_id`; the other questions and the
responses to other questions are the same, in the same order, as before; and
when every response referred to an existing question before, every response
refers to an existing question afterwards. -/
theorem handleDeleteQuestion_cascade {α : Type} (questions : List Question)
    (responses : List (Response α)) (questionId : Nat) :
    (∀ q ∈ (handleDeleteQuestion true questions responses questionId).1, q.id ≠ questionId) ∧
    (∀ r ∈ (handleDeleteQuestion true questions responses questionId).2,
      r.question_id ≠ questionId) ∧
    ((handleDeleteQuestion true questions responses questionId).1.filter
        (fun q => decide (q.id ≠ questionId))
      = questions.filter (fun q => decide (q.id ≠ questionId))) ∧
    ((handleDeleteQuestion true questions responses questionId).2.filter
        (fun r => decide (r.question_id ≠ questionId))
      = responses.filter (fun r => decide (r.question_id ≠ questionId))) ∧
    (∀ q, q ∈ (handleDeleteQuestion true questions responses questionId).1 ↔
      q ∈ questions ∧ q.id ≠ questionId) ∧
    (∀ r, r ∈ (handleDeleteQuestion true questions responses questionId).2 ↔
      r ∈ responses ∧ r.question_id ≠ questionId) ∧
    List.Sublist (handleDeleteQuestion true questions responses questionId).1 questions ∧
    List.Sublist (handleDeleteQuestion true questions responses questionId).2 responses ∧
    ((∀ r ∈ responses, ∃ q ∈ questions, q.id = r.question_id) →
      ∀ r ∈ (handleDeleteQuestion true questions responses questionId).2,
        ∃ q ∈ (handleDeleteQuestion true questions responses questionId).1,
          q.id = r.question_id) := by
  have h1 : (handleDeleteQuestion true questions responses questionId).1 =
      questions.filter (fun q => decide (q.id ≠ questionId)) := rfl
  have h2 : (handleDeleteQuestion true questions responses questionId).2 =
      responses.filter (fun r => decide (r.question_id ≠ questionId)) := rfl
  rw [h1, h2]
  have hq : ∀ q, q ∈ questions.filter (fun q => decide (q.id ≠ questionId)) ↔
      q ∈ questions ∧ q.id ≠ questionId := by
    intro q
    rw [List.mem_filter, decide_eq_true_eq]
  have hr : ∀ r, r ∈ responses.filter (fun r => decide (r.question_id ≠ questionId)) ↔
      r ∈ responses ∧ r.question_id ≠ questionId := by
    intro r
    rw [List.mem_filter, decide_eq_true_eq]
  refine ⟨fun q h => ((hq q).1 h).2, fun r h => ((hr r).1 h).2, ?_, ?_, hq, hr,
    List.filter_sublist _, List.filter_sublist _, ?_⟩
  · simp only [List.filter_filter, Bool.and_self]
  · simp only [List.filter_filter, Bool.and_self]
  · intro hall r hmem
    obtain ⟨hmem', hne⟩ := (hr r).1 hmem
    obtain ⟨q, hqmem, hqid⟩ := hall r hmem'
    exact ⟨q, (hq q).2 ⟨hqmem, by rw [hqid]; exact hne⟩, hqid⟩

/-- Witness of C15: question 1 is deleted from the mock data. -/
theorem handleDeleteQuestion_cascade_witness :
    (∀ r ∈ mockResponses ℝ,
      ∃ q ∈ [mkQuestion 1 "demo1", mkQuestion 2 "demo2", mkQuestion 3 "me"],
        q.id = r.question_id) ∧
    ∀ r ∈ (handleDeleteQuestion true
        [mkQuestion 1 "demo1", mkQuestion 2 "demo2", mkQuestion 3 "me"]
        (mockResponses ℝ) 1).2,
      ∃ q ∈ (handleDeleteQuestion true
          [mkQuestion 1 "demo1", mkQuestion 2 "demo2", mkQuestion 3 "me"]
          (mockResponses ℝ) 1).1,
        q.id = r.question_id :=
  have hall : ∀ r ∈ mockResponses ℝ,
      ∃ q ∈ [mkQuestion 1 "demo1", mkQuestion 2 "demo2", mkQuestion 3 "me"],
        q.id = r.question_id := by
    intro r hr
    simp only [mockResponses, List.mem_cons, List.mem_singleton, List.not_mem_nil,
      or_false] at hr
    rcases hr with rfl | rfl | rfl <;> simp [mkQuestion]
  ⟨hall, (handleDeleteQuestion_cascade
    [mkQuestion 1 "demo1", mkQuestion 2 "demo2", mkQuestion 3 "me"]
    (mockResponses ℝ) 1).2.2.2.2.2.2.2.2 hall⟩

/-- A map that fixes the elements satisfying `p` and maps the others to
elements not satisfying `p` does not change the filter by `p`. -/
theorem filter_map_of_fixed {β : Type} (p : β → Bool) (f : β → β) (l : List β)
    (hfix : ∀ x ∈ l, p x = true → f x = x) (hkeep : ∀ x ∈ l, p x = false → p (f x) = false) :
    (l.map f).filter p = l.filter p := by
  induction l with
  | nil => rfl
  | cons a t ih =>
    have iht := ih (fun x hx => hfix x (List.mem_cons_of_mem a hx))
      (fun x hx => hkeep x (List.mem_cons_of_mem a hx))
    rw [List.map_cons]
    by_cases hp : p a = true
    · rw [hfix a (List.mem_cons_self a t) hp, List.filter_cons_of_pos hp,
        List.filter_cons_of_pos hp, iht]
    · have hp' : p a = false := by simpa using hp
      have hpf : ¬ p (f a) = true := by
        rw [hkeep a (List.mem_cons_self a t) hp']
        exact Bool.false_ne_true
      rw [List.filter_cons_of_neg hpf, List.filter_cons_of_neg hp, iht]

/-- In a list of questions with distinct identifiers, a question that has the
identifier of a question of `userId` is a question of `userId`. -/
theorem created_by_of_id_eq (userId : String) (questions : List Question) (q q' : Question)
    (hnodup : (questions.map (fun q => q.id)).Nodup) (hq : q ∈ questions)
    (hq' : q' ∈ questions) (hown : q.created_by = userId) (hid : q'.id = q.id) :
    q'.created_by = userId := by
  have heq : q' = q := List.inj_on_of_nodup_map hnodup hq' hq hid
  rw [heq, hown]

/-- The early return of `handleSubmitQuestion`: a `newQuestion` made only of
characters that `trim` strips, such as a no-break space, changes nothing. -/
theorem handleSubmitQuestion_blank (userId : String) (now : Nat) (s : FormState)
    (h : s.newQuestion.data.all jsIsWhiteSpace = true) :
    handleSubmitQuestion userId now s = s := by
  unfold handleSubmitQuestion
  rw [if_pos h]

/-- The trimmed test on concrete texts: a no-break space, a tab and a line
separator are stripped, a letter is not. -/
theorem jsIsWhiteSpace_examples :
    "\u00a0 \t\u2028".data.all jsIsWhiteSpace = true ∧
      "\u00a0a".data.all jsIsWhiteSpace = false ∧ "".data.all jsIsWhiteSpace = true := by
  decide

/-- C16: a question is changed or removed by its creator only. The list item
of a question renders the edit and delete buttons, the only callers of
`handleEditQuestion` and `handleDeleteQuestion`, only when `created_by` is the
current user: for a question of someone else there is no call and the question
list stays as it is. When the question identifiers are distinct,
`handleDeleteQuestion` on the `id` of a question of the current user, and
`handleSubmitQuestion` while `editingQuestion` is `null` or a question of the
current user, leave the questions created by others unchanged and in order.
`handleEditQuestion` only records the question to edit, and every call that a
button makes is on the question of its own list item. -/
theorem creator_guard :
    (∀ (userId : String) (q : Question), q.created_by ≠ userId →
      QuestionList.creatorButtons userId q = []) ∧
    (∀ (userId : String) (q : Question), q.created_by = userId →
      QuestionList.creatorButtons userId q =
        [Click.handleEditQuestion q, Click.handleDeleteQuestion q.id]) ∧
    (∀ (α : Type) (userId : String) (confirmed : Bool) (questions : List Question)
        (responses : List (Response α)) (q : Question),
      q ∈ questions → q.created_by = userId → (questions.map (fun q => q.id)).Nodup →
      (handleDeleteQuestion confirmed questions responses q.id).1.filter
          (fun q' => decide (q'.created_by ≠ userId))
        = questions.filter (fun q' => decide (q'.created_by ≠ userId))) ∧
    (∀ (userId : String) (now : Nat) (s : FormState),
      (∀ e, s.editingQuestion = some e → e ∈ s.questions ∧ e.created_by = userId) →
      (s.questions.map (fun q => q.id)).Nodup →
      (handleSubmitQuestion userId now s).questions.filter
          (fun q' => decide (q'.created_by ≠ userId))
        = s.questions.filter (fun q' => decide (q'.created_by ≠ userId))) ∧
    (∀ (q : Question) (s : FormState),
      (handleEditQuestion q s).editingQuestion = some q ∧
        (handleEditQuestion q s).questions = s.questions) ∧
    (∀ (userId : String) (q : Question) (c : Click),
      c ∈ QuestionList.creatorButtons userId q →
      q.created_by = userId ∧
        (c = Click.handleEditQuestion q ∨ c = Click.handleDeleteQuestion q.id)) := by
  refine ⟨?_, ?_, ?_, ?_, fun q s => ⟨rfl, rfl⟩, ?_⟩
  · intro userId q h
    simp [QuestionList.creatorButtons, h]
  · intro userId q h
    simp [QuestionList.creatorButtons, h]
  · intro α userId confirmed questions responses q hq hown hnodup
    cases confirmed
    · rfl
    · show (questions.filter (fun q' => decide (q'.id ≠ q.id))).filter
          (fun q' => decide (q'.created_by ≠ userId))
        = questions.filter (fun q' => decide (q'.created_by ≠ userId))
      rw [List.filter_filter]
      apply List.filter_congr
      intro q' hq'
      by_cases hother : q'.created_by = userId
      · simp [hother]
      · have hid : q'.id ≠ q.id := fun hid =>
          hother (created_by_of_id_eq userId questions q q' hnodup hq hq' hown hid)
        simp [hother, hid]
  · intro userId now s hedit hnodup
    unfold handleSubmitQuestion
    by_cases hblank : s.newQuestion.data.all jsIsWhiteSpace = true
    · rw [if_pos hblank]
    · rw [if_neg hblank]
      cases hs : s.editingQuestion with
      | none =>
        simp only [List.filter_append]
        simp
      | some e =>
        obtain ⟨he, hown⟩ := hedit e hs
        show (s.questions.map (fun q =>
            if q.id = e.id then
              { q with text := s.newQuestion, tags := s.newQuestionTags, updated_at := some now }
            else q)).filter (fun q' => decide (q'.created_by ≠ userId))
          = s.questions.filter (fun q' => decide (q'.created_by ≠ userId))
        apply filter_map_of_fixed
        · intro x hx hp
          rw [decide_eq_true_eq] at hp
          have hid : ¬ x.id = e.id := fun hid =>
            hp (created_by_of_id_eq userId s.questions e x hnodup he hx hown hid)
          rw [if_neg hid]
        · intro x _ hp
          split
          · exact hp
          · exact hp
  · intro userId q c hc
    by_cases hown : q.created_by = userId
    · refine ⟨hown, ?_⟩
      simpa [QuestionList.creatorButtons, hown] using hc
    · simp [QuestionList.creatorButtons, hown] at hc

/-- Witness of C16: the user `me` deletes the own question 3 of the mock
questions; the questions of `demo1` and `demo2` stay. -/
theorem creator_guard_witness :
    (mkQuestion 3 "me" ∈ [mkQuestion 1 "demo1", mkQuestion 2 "demo2", mkQuestion 3 "me"] ∧
      (mkQuestion 3 "me").created_by = "me" ∧
      ([mkQuestion 1 "demo1", mkQuestion 2 "demo2", mkQuestion 3 "me"].map
        (fun q => q.id)).Nodup) ∧
    (handleDeleteQuestion true [mkQuestion 1 "demo1", mkQuestion 2 "demo2", mkQuestion 3 "me"]
        (mockResponses ℝ) (mkQuestion 3 "me").id).1.filter
          (fun q' => decide (q'.created_by ≠ "me"))
      = [mkQuestion 1 "demo1", mkQuestion 2 "demo2", mkQuestion 3 "me"].filter
          (fun q' => decide (q'.created_by ≠ "me")) :=
  ⟨⟨by decide, rfl, by decide⟩,
    creator_guard.2.2.1 ℝ "me" true
      [mkQuestion 1 "demo1", mkQuestion 2 "demo2", mkQuestion 3 "me"] (mockResponses ℝ)
      (mkQuestion 3 "me") (by decide) rfl (by decide)⟩

/-! ## Claims on the two distance classifications -/

/-- The label of the question list item is the label of the band of its
distance. -/
theorem QuestionList_label_eq {α : Type} [LinearOrderedField α] (sqrt : α → α)
    (responses : List (Response α)) (userId : String) (q : Question) (d : α)
    (label color : String)
    (h : QuestionList.userDistance sqrt responses userId q = some (d, label, color)) :
    label = QuestionList.bandLabel (QuestionList.distanceBand d) := by
  unfold QuestionList.userDistance at h
  simp only [] at h
  split at h
  · unfold QuestionList.distanceBand QuestionList.bandLabel
    split_ifs at h <;>
      simp only [Option.some.injEq, Prod.mk.injEq] at h <;>
      obtain ⟨hd, hl, -⟩ := h <;> subst hd <;> subst hl <;> simp [*]
  · exact Option.noConfusion h

/-- The user position label of `getGroupStats` is the label of the band of
`avgDistance`. -/
theorem getGroupStats_label_eq {α : Type} [LinearOrderedField α] (sqrt : α → α)
    (responses : List (Response α)) (userId : String) (filteredQuestions : List Question)
    (g : GroupStats α) (d : α)
    (hg : getGroupStats sqrt responses userId filteredQuestions = some g)
    (hd : g.avgDistance = some d) :
    g.userPositionLabel = getGroupStats.bandLabel (getGroupStats.distanceBand d) := by
  have hne := questionsWithResponses_ne_nil_of_some sqrt responses userId filteredQuestions g hg
  obtain ⟨g', hg', -, -, -, hlab, -⟩ :=
    getGroupStats_of_ne_nil sqrt responses userId filteredQuestions hne
  rw [hg] at hg'
  cases hg'
  rw [hlab d hd]
  unfold getGroupStats.distanceBand getGroupStats.bandLabel
  split_ifs <;> simp_all

/-- C17: the question list classifies a distance by the bands `< 10`,
`[10, 25)`, `[25, 40)`, `≥ 40` and `getGroupStats` classifies the average
distance by the bands `< 10`, `[10, 20)`, `[20, 30)`, `≥ 30`; the labels of
the code are those of these bands; and for `d ≥ 0` the two ranks are equal
exactly when `d` is outside `[20, 25)` and outside `[30, 40)`. -/
theorem distanceBand_agree_iff {α : Type} [LinearOrderedField α] (sqrt : α → α) :
    (∀ (responses : List (Response α)) (userId : String) (q : Question) (d : α)
        (label color : String),
      QuestionList.userDistance sqrt responses userId q = some (d, label, color) →
      label = QuestionList.bandLabel (QuestionList.distanceBand d)) ∧
    (∀ (responses : List (Response α)) (userId : String) (filteredQuestions : List Question)
        (g : GroupStats α) (d : α),
      getGroupStats sqrt responses userId filteredQuestions = some g →
      g.avgDistance = some d →
      g.userPositionLabel = getGroupStats.bandLabel (getGroupStats.distanceBand d)) ∧
    (∀ d : α,
      (QuestionList.distanceBand d = 1 ↔ d < 10) ∧
      (QuestionList.distanceBand d = 2 ↔ 10 ≤ d ∧ d < 25) ∧
      (QuestionList.distanceBand d = 3 ↔ 25 ≤ d ∧ d < 40) ∧
      (QuestionList.distanceBand d = 4 ↔ 40 ≤ d) ∧
      (getGroupStats.distanceBand d = 1 ↔ d < 10) ∧
      (getGroupStats.distanceBand d = 2 ↔ 10 ≤ d ∧ d < 20) ∧
      (getGroupStats.distanceBand d = 3 ↔ 20 ≤ d ∧ d < 30) ∧
      (getGroupStats.distanceBand d = 4 ↔ 30 ≤ d)) ∧
    (∀ d : α, 0 ≤ d →
      (QuestionList.distanceBand d = getGroupStats.distanceBand d ↔
        ¬ (20 ≤ d ∧ d < 25) ∧ ¬ (30 ≤ d ∧ d < 40))) ∧
    (∀ i j : Nat, 1 ≤ i → i ≤ 4 → 1 ≤ j → j ≤ 4 →
      (QuestionList.bandLabel i = QuestionList.bandLabel j → i = j) ∧
      (getGroupStats.bandLabel i = getGroupStats.bandLabel j → i = j)) := by
  refine ⟨QuestionList_label_eq sqrt, getGroupStats_label_eq sqrt, ?_, ?_, ?_⟩
  · intro d
    unfold QuestionList.distanceBand getGroupStats.distanceBand
    refine ⟨?_, ?_, ?_, ?_, ?_, ?_, ?_, ?_⟩ <;> split_ifs <;>
      simp only [OfNat.ofNat_ne_one, OfNat.one_ne_ofNat, Nat.reduceEqDiff, true_iff, false_iff,
        not_and, not_lt, not_le] <;>
      first
        | assumption
        | exact le_of_not_lt ‹_›
        | (intro; linarith)
        | (constructor <;> linarith)
        | linarith
  · intro d _
    unfold QuestionList.distanceBand getGroupStats.distanceBand
    split_ifs <;> constructor <;> intro h <;>
      first
        | exact absurd h (by decide)
        | rfl
        | exact ⟨fun hh => by linarith [hh.1, hh.2], fun hh => by linarith [hh.1, hh.2]⟩
        | exact absurd ⟨by linarith, by linarith⟩ h.1
        | exact absurd ⟨by linarith, by linarith⟩ h.2
  · intro i j hi1 hi4 hj1 hj4
    interval_cases i <;> interval_cases j <;> constructor <;> intro h <;>
      first | rfl | exact absurd h (by decide)

/-- Witness of C17 at the distance 22, of rank 2 in the question list and of
rank 3 in `getGroupStats`. -/
theorem distanceBand_agree_iff_witness :
    (0 : ℝ) ≤ 22 ∧
    (QuestionList.distanceBand (22 : ℝ) = getGroupStats.distanceBand (22 : ℝ) ↔
      ¬ ((20 : ℝ) ≤ 22 ∧ (22 : ℝ) < 25) ∧ ¬ ((30 : ℝ) ≤ 22 ∧ (22 : ℝ) < 40)) :=
  ⟨by norm_num, (distanceBand_agree_iff Real.sqrt).2.2.2.1 22 (by norm_num)⟩

/-! ## Bounds on the statistics of responses in `[0, 100]` -/

/-- The mean of a non-empty list of numbers of `[0, 100]` is in `[0, 100]`. -/
theorem mean_mem_range (l : List ℝ) (hne : l ≠ []) (h : ∀ x ∈ l, 0 ≤ x ∧ x ≤ 100) :
    0 ≤ mean l ∧ mean l ≤ 100 := by
  have hpos : (0 : ℝ) < l.length := by
    exact_mod_cast List.length_pos.2 hne
  have hlo : 0 ≤ l.sum := List.sum_nonneg (fun x hx => (h x hx).1)
  have hhi : l.sum ≤ l.length • (100 : ℝ) :=
    List.sum_le_card_nsmul l 100 (fun x hx => (h x hx).2)
  rw [nsmul_eq_mul] at hhi
  unfold mean
  exact ⟨div_nonneg hlo hpos.le, by rw [div_le_iff₀ hpos]; linarith⟩

/-- The sum of the squared deviations from `m`, in terms of those from `c`. -/
theorem sum_sq_sub (l : List ℝ) (m c : ℝ) :
    (l.map (fun x => (x - m) ^ 2)).sum =
      (l.map (fun x => (x - c) ^ 2)).sum - 2 * (m - c) * (l.sum - l.length * c)
        + l.length * (m - c) ^ 2 := by
  induction l with
  | nil => simp
  | cons a t ih =>
    simp only [List.map_cons, List.sum_cons, List.length_cons, Nat.cast_add, Nat.cast_one, ih]
    ring

/-- The population variance of a non-empty list of numbers of `[0, 100]` is
at most `2500`. -/
theorem populationVariance_le (l : List ℝ) (hne : l ≠ []) (h : ∀ x ∈ l, 0 ≤ x ∧ x ≤ 100) :
    populationVariance l ≤ 2500 := by
  have hpos : (0 : ℝ) < l.length := by
    exact_mod_cast List.length_pos.2 hne
  have hsum : l.sum = l.length * mean l := by
    unfold mean
    field_simp
  have h50 : (l.map (fun x : ℝ => (x - 50) ^ 2)).sum ≤ (l.length : ℝ) * 2500 := by
    have := List.sum_le_card_nsmul (l.map (fun x => (x - 50) ^ 2)) (2500 : ℝ) (by
      intro y hy
      obtain ⟨x, hx, rfl⟩ := List.mem_map.1 hy
      have := h x hx
      nlinarith [this.1, this.2])
    rwa [nsmul_eq_mul, List.length_map] at this
  have hid := sum_sq_sub l (mean l) 50
  have hsq : 0 ≤ (l.length : ℝ) * (mean l - 50) ^ 2 := by positivity
  have hle : (l.map (fun x : ℝ => (x - mean l) ^ 2)).sum ≤ (l.length : ℝ) * 2500 := by
    rw [hid, hsum]
    nlinarith
  unfold populationVariance
  rw [mean, List.length_map, div_le_iff₀ hpos]
  linarith

theorem sqrt_2500 : Real.sqrt 2500 = 50 := by
  rw [show (2500 : ℝ) = 50 ^ 2 by norm_num]; exact Real.sqrt_sq (by norm_num)

/-- C18: for a non-empty response set with agreement and importance in
`[0, 100]`, `getQuestionStats` returns means in `[0, 100]`, standard
deviations at most 50, and `0 ≤ stdDevGlobal ≤ 50`. -/
theorem getQuestionStats_bounds (responses : List (Response ℝ)) (questionId : Nat)
    (hne : getQuestionResponses responses questionId ≠ [])
    (hrange : ∀ r ∈ getQuestionResponses responses questionId,
      0 ≤ r.agreement ∧ r.agreement ≤ 100 ∧ 0 ≤ r.importance ∧ r.importance ≤ 100) :
    ∃ s, getQuestionStats Real.sqrt responses questionId = some s ∧
      0 ≤ s.avgAgreement ∧ s.avgAgreement ≤ 100 ∧
      0 ≤ s.avgImportance ∧ s.avgImportance ≤ 100 ∧
      s.stdDevAgreement ≤ 50 ∧ s.stdDevImportance ≤ 50 ∧
      0 ≤ s.stdDevGlobal ∧ s.stdDevGlobal ≤ 50 := by
  obtain ⟨s, hs, hA, hI, hsA, hsI, hG, -⟩ :=
    getQuestionStats_of_ne_nil Real.sqrt responses questionId hne
  have hneA : (getQuestionResponses responses questionId).map (fun r => r.agreement) ≠ [] := by
    simpa using hne
  have hneI : (getQuestionResponses responses questionId).map (fun r => r.importance) ≠ [] := by
    simpa using hne
  have hrA : ∀ x ∈ (getQuestionResponses responses questionId).map (fun r => r.agreement),
      0 ≤ x ∧ x ≤ 100 := by
    intro x hx
    obtain ⟨r, hr, rfl⟩ := List.mem_map.1 hx
    exact ⟨(hrange r hr).1, (hrange r hr).2.1⟩
  have hrI : ∀ x ∈ (getQuestionResponses responses questionId).map (fun r => r.importance),
      0 ≤ x ∧ x ≤ 100 := by
    intro x hx
    obtain ⟨r, hr, rfl⟩ := List.mem_map.1 hx
    exact ⟨(hrange r hr).2.2.1, (hrange r hr).2.2.2⟩
  have hmA := mean_mem_range _ hneA hrA
  have hmI := mean_mem_range _ hneI hrI
  have hsdA : s.stdDevAgreement ≤ 50 := by
    rw [hsA, ← sqrt_2500]
    exact Real.sqrt_le_sqrt (populationVariance_le _ hneA hrA)
  have hsdI : s.stdDevImportance ≤ 50 := by
    rw [hsI, ← sqrt_2500]
    exact Real.sqrt_le_sqrt (populationVariance_le _ hneI hrI)
  have h0A : 0 ≤ s.stdDevAgreement := by rw [hsA]; exact Real.sqrt_nonneg _
  have h0I : 0 ≤ s.stdDevImportance := by rw [hsI]; exact Real.sqrt_nonneg _
  refine ⟨s, hs, ?_, ?_, ?_, ?_, hsdA, hsdI, ?_, ?_⟩
  · rw [hA]; exact hmA.1
  · rw [hA]; exact hmA.2
  · rw [hI]; exact hmI.1
  · rw [hI]; exact hmI.2
  · rw [hG]; linarith
  · rw [hG]; linarith

/-- Witness of C18 on question 1 of the mock data. -/
theorem getQuestionStats_bounds_witness :
    (getQuestionResponses (mockResponses ℝ) 1 ≠ [] ∧
      ∀ r ∈ getQuestionResponses (mockResponses ℝ) 1,
        0 ≤ r.agreement ∧ r.agreement ≤ 100 ∧ 0 ≤ r.importance ∧ r.importance ≤ 100) ∧
    ∃ s, getQuestionStats Real.sqrt (mockResponses ℝ) 1 = some s ∧
      0 ≤ s.avgAgreement ∧ s.avgAgreement ≤ 100 ∧
      0 ≤ s.avgImportance ∧ s.avgImportance ≤ 100 ∧
      s.stdDevAgreement ≤ 50 ∧ s.stdDevImportance ≤ 50 ∧
      0 ≤ s.stdDevGlobal ∧ s.stdDevGlobal ≤ 50 :=
  have hne : getQuestionResponses (mockResponses ℝ) 1 ≠ [] := by
    simp [getQuestionResponses_mock_1]
  have hrange : ∀ r ∈ getQuestionResponses (mockResponses ℝ) 1,
      0 ≤ r.agreement ∧ r.agreement ≤ 100 ∧ 0 ≤ r.importance ∧ r.importance ≤ 100 := by
    intro r hr
    rw [getQuestionResponses_mock_1] at hr
    simp only [List.mem_cons, List.mem_singleton, List.not_mem_nil, or_false] at hr
    rcases hr with rfl | rfl <;> norm_num [mkResponse]
  ⟨⟨hne, hrange⟩, getQuestionStats_bounds (mockResponses ℝ) 1 hne hrange⟩

/-! ## Claims on `AnswerView` and on the fallbacks of `getGroupStats` -/

/-- Without the falsy zero, the sliders of `AnswerView` start at the values of
the existing response. -/
theorem AnswerView_initialState_of_ne_zero {α : Type} [LinearOrderedField α]
    (responses : List (Response α)) (userId : String) (selectedQuestion : Question)
    (r : Response α) (hr : getUserResponse responses userId selectedQuestion.id = some r)
    (hA : r.agreement ≠ 0) (hI : r.importance ≠ 0) :
    AnswerView.initialState responses userId selectedQuestion =
      (r.agreement, r.importance, true) := by
  simp [AnswerView.initialState, hr, jsOr, hA, hI]

/-- C19, at the failing input: the user `me` has the response `(0, 70)` to
question 1. `AnswerView` starts the agreement slider at 50, not at 0, and
submitting without moving the sliders overwrites the agreement 0 by 50. -/
theorem AnswerView_initial_zero :
    getUserResponse [mkResponse ℝ 1 1 "me" 0 70] "me" (mkQuestion 1 "demo1").id =
      some (mkResponse ℝ 1 1 "me" 0 70) ∧
    AnswerView.initialState [mkResponse ℝ 1 1 "me" 0 70] "me" (mkQuestion 1 "demo1") =
      (50, 70, true) ∧
    AnswerView.submitInitial [mkResponse ℝ 1 1 "me" 0 70] "me" (mkQuestion 1 "demo1") 7 =
      [{ id := 1, question_id := 1, user_id := "me", agreement := 50, importance := 70,
         created_at := none, updated_at := some 7 }] ∧
    (50 : ℝ) ≠ 0 := by
  have hu : getUserResponse [mkResponse ℝ 1 1 "me" 0 70] "me" (mkQuestion 1 "demo1").id =
      some (mkResponse ℝ 1 1 "me" 0 70) := by
    simp [getUserResponse, mkResponse, mkQuestion]
  have hinit : AnswerView.initialState [mkResponse ℝ 1 1 "me" 0 70] "me"
      (mkQuestion 1 "demo1") = (50, 70, true) := by
    simp only [AnswerView.initialState, hu, Option.map, jsOr]
    norm_num [mkResponse]
  refine ⟨hu, hinit, ?_, by norm_num⟩
  have hidx : List.findIdx?
      (fun r : Response ℝ =>
        decide (r.question_id = (mkQuestion 1 "demo1").id) && decide (r.user_id = "me"))
      [mkResponse ℝ 1 1 "me" 0 70] = some 0 := by
    simp [mkResponse, mkQuestion]
  simp only [AnswerView.submitInitial, hinit, handleSubmitResponse, hidx]
  simp [mkResponse]

/-- C20: when `getGroupStats` returns a record, every answered question has
statistics, so the filter on `null` removes nothing and `allStdDevs` has
`totalQuestions ≥ 1` elements; every user-answered question has both a
response of the user and statistics, so `return 0` is not taken, and
`allDistances` has `userAnswered` elements, at least one when `avgDistance` is
computed; `avgStdDev` and `avgDistance` are the means of these lists. -/
theorem getGroupStats_no_fallback {α : Type} [LinearOrderedField α] (sqrt : α → α)
    (responses : List (Response α)) (userId : String) (filteredQuestions : List Question)
    (g : GroupStats α) (hg : getGroupStats sqrt responses userId filteredQuestions = some g) :
    (∀ q ∈ getGroupStats.questionsWithResponses responses filteredQuestions,
      ∃ s, getQuestionStats sqrt responses q.id = some s) ∧
    (((getGroupStats.questionsWithResponses responses filteredQuestions).map
        (fun q => getQuestionStats sqrt responses q.id)).filter (fun s => s.isSome)
      = (getGroupStats.questionsWithResponses responses filteredQuestions).map
        (fun q => getQuestionStats sqrt responses q.id)) ∧
    (getGroupStats.allStdDevs sqrt responses filteredQuestions).length = g.totalQuestions ∧
    g.totalQuestions ≥ 1 ∧
    g.avgStdDev = (getGroupStats.allStdDevs sqrt responses filteredQuestions).sum
      / ((getGroupStats.allStdDevs sqrt responses filteredQuestions).length : α) ∧
    (∀ q ∈ getGroupStats.userResponses responses userId filteredQuestions,
      ∃ r s, getUserResponse responses userId q.id = some r ∧
        getQuestionStats sqrt responses q.id = some s) ∧
    (getGroupStats.allDistances sqrt responses userId filteredQuestions).length
      = g.userAnswered ∧
    (∀ d, g.avgDistance = some d →
      g.userAnswered ≥ 1 ∧
      d = (getGroupStats.allDistances sqrt responses userId filteredQuestions).sum
        / ((getGroupStats.allDistances sqrt responses userId filteredQuestions).length : α)) := by
  have hne := questionsWithResponses_ne_nil_of_some sqrt responses userId filteredQuestions g hg
  obtain ⟨g', hg', havg, -, hdist, -, htot, hans⟩ :=
    getGroupStats_of_ne_nil sqrt responses userId filteredQuestions hne
  rw [hg] at hg'
  cases hg'
  have hS := allStdDevs_forall₂ sqrt responses filteredQuestions
  have hD := allDistances_forall₂ sqrt responses userId filteredQuestions
  have hstats : ∀ q ∈ getGroupStats.questionsWithResponses responses filteredQuestions,
      ∃ s, getQuestionStats sqrt responses q.id = some s := by
    intro q hq
    unfold getGroupStats.questionsWithResponses at hq
    have h := (List.mem_filter.1 hq).2
    rw [decide_eq_true_eq, gt_iff_lt, List.length_pos] at h
    obtain ⟨s, hs, -⟩ := getQuestionStats_of_ne_nil sqrt responses q.id h
    exact ⟨s, hs⟩
  refine ⟨hstats, ?_, ?_, ?_, ?_, ?_, ?_, ?_⟩
  · rw [List.filter_eq_self]
    intro o ho
    obtain ⟨q, hq, rfl⟩ := List.mem_map.1 ho
    obtain ⟨s, hs⟩ := hstats q hq
    rw [hs]
    rfl
  · rw [htot]
    exact hS.length_eq.symm
  · rw [htot]
    exact List.length_pos.2 hne
  · rw [havg, mean]
  · intro q hq
    unfold getGroupStats.userResponses at hq
    obtain ⟨r, hr⟩ := Option.isSome_iff_exists.1 (List.mem_filter.1 hq).2
    obtain ⟨s, hs⟩ := getQuestionStats_of_getUserResponse sqrt responses userId q.id r hr
    exact ⟨r, s, hr, hs⟩
  · rw [hans]
    exact hD.length_eq.symm
  · intro d hd
    rw [hdist] at hd
    split_ifs at hd with hlen
    · rw [Option.some.injEq] at hd
      exact ⟨by rw [hans]; exact hlen, by rw [← hd, mean]⟩

/-- Witness of C20 on `twoQuestionResponses`, for a user without response. -/
theorem getGroupStats_no_fallback_witness :
    getGroupStats Real.sqrt (twoQuestionResponses ℝ) "nobody"
        [mkQuestion 1 "demo1", mkQuestion 2 "demo2"] = some (twoQuestionGroupStats ℝ) ∧
    (getGroupStats.allStdDevs Real.sqrt (twoQuestionResponses ℝ)
        [mkQuestion 1 "demo1", mkQuestion 2 "demo2"]).length
      = (twoQuestionGroupStats ℝ).totalQuestions ∧
    (twoQuestionGroupStats ℝ).totalQuestions ≥ 1 :=
  have h := getGroupStats_no_fallback Real.sqrt (twoQuestionResponses ℝ) "nobody"
    [mkQuestion 1 "demo1", mkQuestion 2 "demo2"] (twoQuestionGroupStats ℝ)
    getGroupStats_two_nobody
  ⟨getGroupStats_two_nobody, h.2.2.1, h.2.2.2.1⟩

/-! ## Claims on the comparator of `getSortedQuestions` -/

/-- The comparator by importance or by controversy, in terms of the statistics
of the two questions: `1` when the first has none, `-1` when only the second
has none, and otherwise the difference, second minus first, of the sort key. -/
theorem compare_cases {α : Type} [LinearOrderedField α] (sqrt : α → α)
    (responses : List (Response α)) (a b : Question) :
    (getQuestionStats sqrt responses a.id = none →
      getSortedQuestions.compare sqrt responses "importance" a b = 1 ∧
      getSortedQuestions.compare sqrt responses "controversy" a b = 1) ∧
    (∀ statsA, getQuestionStats sqrt responses a.id = some statsA →
      getQuestionStats sqrt responses b.id = none →
      getSortedQuestions.compare sqrt responses "importance" a b = -1 ∧
      getSortedQuestions.compare sqrt responses "controversy" a b = -1) ∧
    (∀ statsA statsB, getQuestionStats sqrt responses a.id = some statsA →
      getQuestionStats sqrt responses b.id = some statsB →
      getSortedQuestions.compare sqrt responses "importance" a b =
        statsB.avgImportance - statsA.avgImportance ∧
      getSortedQuestions.compare sqrt responses "controversy" a b =
        statsB.stdDevGlobal - statsA.stdDevGlobal) := by
  have hne : ¬ ("controversy" = "importance") := by decide
  refine ⟨fun hA => ?_, fun statsA hA hB => ?_, fun statsA statsB hA hB => ?_⟩
  · simp [getSortedQuestions.compare, hA]
  · simp [getSortedQuestions.compare, hA, hB]
  · simp [getSortedQuestions.compare, hA, hB]

/-- When at least one of two questions has responses, the comparator by
importance or controversy is oriented: the two orders of the arguments give
opposite signs, or both `0`. -/
theorem compare_oriented_of_answered {α : Type} [LinearOrderedField α] (sqrt : α → α)
    (responses : List (Response α)) (sortBy : String) (a b : Question)
    (hsort : sortBy = "importance" ∨ sortBy = "controversy")
    (h : getQuestionStats sqrt responses a.id ≠ none ∨
      getQuestionStats sqrt responses b.id ≠ none) :
    (getSortedQuestions.compare sqrt responses sortBy a b > 0 ↔
      getSortedQuestions.compare sqrt responses sortBy b a < 0) ∧
    (getSortedQuestions.compare sqrt responses sortBy a b = 0 ↔
      getSortedQuestions.compare sqrt responses sortBy b a = 0) ∧
    (getSortedQuestions.compare sqrt responses sortBy a b < 0 ↔
      getSortedQuestions.compare sqrt responses sortBy b a > 0) := by
  have hab := compare_cases sqrt responses a b
  have hba := compare_cases sqrt responses b a
  cases hA : getQuestionStats sqrt responses a.id with
  | none =>
    cases hB : getQuestionStats sqrt responses b.id with
    | none => rw [hA, hB] at h; simp at h
    | some statsB =>
      rcases hsort with rfl | rfl
      · rw [(hab.1 hA).1, (hba.2.1 statsB hB hA).1]; norm_num
      · rw [(hab.1 hA).2, (hba.2.1 statsB hB hA).2]; norm_num
  | some statsA =>
    cases hB : getQuestionStats sqrt responses b.id with
    | none =>
      rcases hsort with rfl | rfl
      · rw [(hab.2.1 statsA hA hB).1, (hba.1 hB).1]; norm_num
      · rw [(hab.2.1 statsA hA hB).2, (hba.1 hB).2]; norm_num
    | some statsB =>
      rcases hsort with rfl | rfl
      · rw [(hab.2.2 statsA statsB hA hB).1, (hba.2.2 statsB statsA hB hA).1]
        refine ⟨?_, ?_, ?_⟩ <;> constructor <;> intro h' <;> linarith
      · rw [(hab.2.2 statsA statsB hA hB).2, (hba.2.2 statsB statsA hB hA).2]
        refine ⟨?_, ?_, ?_⟩ <;> constructor <;> intro h' <;> linarith

/-- C21, at the failing input: on the mock data the questions 3 and 4 have no
response. The comparator, by importance and by controversy, returns `1` for
the pair in both orders, and `1` for question 3 against itself: the two orders
do not give opposite signs and are not both `0`. -/
theorem compare_unanswered :
    getQuestionStats Real.sqrt (mockResponses ℝ) (mkQuestion 3 "me").id = none ∧
    getQuestionStats Real.sqrt (mockResponses ℝ) (mkQuestion 4 "me").id = none ∧
    getSortedQuestions.compare Real.sqrt (mockResponses ℝ) "importance"
      (mkQuestion 3 "me") (mkQuestion 4 "me") = 1 ∧
    getSortedQuestions.compare Real.sqrt (mockResponses ℝ) "importance"
      (mkQuestion 4 "me") (mkQuestion 3 "me") = 1 ∧
    getSortedQuestions.compare Real.sqrt (mockResponses ℝ) "controversy"
      (mkQuestion 3 "me") (mkQuestion 4 "me") = 1 ∧
    getSortedQuestions.compare Real.sqrt (mockResponses ℝ) "controversy"
      (mkQuestion 4 "me") (mkQuestion 3 "me") = 1 ∧
    getSortedQuestions.compare Real.sqrt (mockResponses ℝ) "importance"
      (mkQuestion 3 "me") (mkQuestion 3 "me") = 1 ∧
    ¬ (getSortedQuestions.compare Real.sqrt (mockResponses ℝ) "importance"
        (mkQuestion 3 "me") (mkQuestion 4 "me") > 0 ↔
      getSortedQuestions.compare Real.sqrt (mockResponses ℝ) "importance"
        (mkQuestion 4 "me") (mkQuestion 3 "me") < 0) := by
  have h3 : getQuestionStats Real.sqrt (mockResponses ℝ) (mkQuestion 3 "me").id = none := by
    rw [getQuestionStats_eq_none_iff]
    simp [getQuestionResponses, mockResponses, mkQuestion]
  have h4 : getQuestionStats Real.sqrt (mockResponses ℝ) (mkQuestion 4 "me").id = none := by
    rw [getQuestionStats_eq_none_iff]
    simp [getQuestionResponses, mockResponses, mkQuestion]
  have h34 := (compare_cases Real.sqrt (mockResponses ℝ) (mkQuestion 3 "me")
    (mkQuestion 4 "me")).1 h3
  have h43 := (compare_cases Real.sqrt (mockResponses ℝ) (mkQuestion 4 "me")
    (mkQuestion 3 "me")).1 h4
  have h33 := (compare_cases Real.sqrt (mockResponses ℝ) (mkQuestion 3 "me")
    (mkQuestion 3 "me")).1 h3
  refine ⟨h3, h4, h34.1, h43.1, h34.2, h43.2, h33.1, ?_⟩
  rw [h34.1, h43.1]
  norm_num

end Canopee
